import Mathlib

/-! ChainerX and xchainer: the Python binding routines, the routine layer of
convolution, and the shape and axis rules of the specification.

A shallow embedding of `chainerx/python/routines.cc`,
`xchainer/routines/connection.cc` and `xchainer/cuda/cuda_device_test.cc`.

* Machine integers (`int64_t`, `ssize_t`) are exact integers reduced with
  `wrap64` after every arithmetic operation that can leave the 64-bit range.
* A C++ function that can throw is a function into `Outcome`.
* A binding whose last step is `MoveArrayBody(R(args))` for a routine `R`
  declared outside this file returns the record of the arguments handed to `R`;
  an exception thrown by the binding itself, before `R` is reached, is
  `Outcome.thrown`.
* Functions and types that the sources use but do not contain are parameters,
  or are modelled from the specification where a doc comment says so.
-/

namespace chainerx

/-! ## Machine integers -/

/-- Two's-complement reduction of an exact integer to the `int64_t` range. -/
def wrap64 (x : Int) : Int := (x + 2 ^ 63) % 2 ^ 64 - 2 ^ 63

/-- The value is representable as an `int64_t`. -/
def InInt64 (x : Int) : Prop := -(2 ^ 63) ≤ x ∧ x < 2 ^ 63

instance (x : Int) : Decidable (InInt64 x) := by
  unfold InInt64; infer_instance

/-! ## Exceptions and outcomes -/

/-- The exception classes thrown in `routines.cc`, each with its message, and
the `cast_error` that a failed `py::cast` throws. -/
inductive Error where
  | ChainerxError (msg : String)
  | NotImplementedError (msg : String)
  | value_error (msg : String)
  | type_error (msg : String)
  | cast_error (msg : String)
  deriving DecidableEq, Repr

/-- The class of an exception, without its message. -/
inductive ErrorKind where
  | ChainerxError
  | NotImplementedError
  | value_error
  | type_error
  | cast_error
  deriving DecidableEq, Repr

/-- The class an exception object belongs to. -/
def Error.kind : Error → ErrorKind
  | .ChainerxError _ => .ChainerxError
  | .NotImplementedError _ => .NotImplementedError
  | .value_error _ => .value_error
  | .type_error _ => .type_error
  | .cast_error _ => .cast_error

/-- The message carried by an exception object. -/
def Error.what : Error → String
  | .ChainerxError m => m
  | .NotImplementedError m => m
  | .value_error m => m
  | .type_error m => m
  | .cast_error m => m

/-- How a call ends: it returns a value, it throws, or it executes an operation
for which C++ defines no behaviour (an integer division by zero, a conversion
of a floating-point value that the integer type cannot hold). -/
inductive Outcome (α : Type) where
  | returned (a : α)
  | thrown (e : Error)
  | trapped
  deriving DecidableEq, Repr

/-- The call returned a value. -/
def Outcome.succeeds {α : Type} : Outcome α → Bool
  | .returned _ => true
  | _ => false

/-- The call threw an exception. -/
def Outcome.fails {α : Type} : Outcome α → Bool
  | .thrown _ => true
  | _ => false

/-! ## Data model -/

/-- Modelled from the spec: `chainerx/dtype.h` is not among the sources. The
enumerated scalar kinds of section 3: boolean, signed and unsigned integers of
fixed widths, floating-point widths. -/
inductive Dtype where
  | kBool
  | kInt8
  | kInt16
  | kInt32
  | kInt64
  | kUInt8
  | kFloat16
  | kFloat32
  | kFloat64
  deriving DecidableEq, Repr

/-- Modelled from the spec: `chainerx/dtype.h` is not among the sources. The
element size in bytes that a dtype drives (section 3). -/
def GetItemSize : Dtype → Int
  | .kBool => 1
  | .kInt8 => 1
  | .kInt16 => 2
  | .kInt32 => 4
  | .kInt64 => 8
  | .kUInt8 => 1
  | .kFloat16 => 2
  | .kFloat32 => 4
  | .kFloat64 => 8

/-- Dimension sizes, outermost axis first. -/
abbrev Shape := List Int

/-- Byte steps per axis, outermost axis first. -/
abbrev Strides := List Int

/-- Modelled from the spec: `chainerx/device.h` is not among the sources. A
device is a backend kind with an ordinal index, as in "native:0" (section 3). -/
structure Device where
  backend : String
  index : Int
  deriving DecidableEq, Repr

/-- The release action attached to a `std::shared_ptr<void>`. -/
inductive Deleter where
  | noop
  | deviceFree
  deriving DecidableEq, Repr

/-- A `std::shared_ptr<void>`: the address it holds and its release action. -/
structure SharedPtr where
  ptr : Nat
  deleter : Deleter
  deriving DecidableEq, Repr

/-- Modelled from the spec: `chainerx/array.h` is not among the sources. The
array handle of section 3: shape, dtype, device, strides, byte offset and
buffer reference. -/
structure ArrayBody where
  shape : Shape
  dtype : Dtype
  device : Device
  strides : Strides
  offset : Int
  data : SharedPtr
  deriving DecidableEq, Repr

/-- Row-major strides of a shape for a given element size: the innermost axis
steps by one element, each outer axis by the byte size of everything inside. -/
def contiguousStrides (item_size : Int) : Shape → Strides
  | [] => []
  | _ :: rest => (rest.foldl (· * ·) item_size) :: contiguousStrides item_size rest

/-- Modelled from the spec: `chainerx::FromData` is declared in
`chainerx/routines/creation.h`, which is not among the sources. It builds the
array handle over the given data pointer without copying; absent strides mean
the default, contiguous strides of the shape for the dtype's element size. -/
def FromData (shape : Shape) (dtype : Dtype) (data : SharedPtr) (strides : Option Strides)
    (offset : Int) (device : Device) : ArrayBody :=
  { shape := shape
    dtype := dtype
    device := device
    strides := strides.getD (contiguousStrides (GetItemSize dtype) shape)
    offset := offset
    data := data }

/-- The fields of `pybind11::buffer_info` read by `MakeArrayFromBuffer`: the
region's address, its declared item size, element count, shape and strides. -/
structure buffer_info where
  ptr : Nat
  itemsize : Int
  size : Int
  shape : List Int
  strides : List Int
  deriving DecidableEq, Repr

/-- The byte length of a region: element count times item size. -/
def buffer_info.nbytes (info : buffer_info) : Int := info.size * info.itemsize

/-- A region handed over by the buffer protocol describes memory that exists:
its element count is not negative, its item size is positive, and its byte
length fits the address space. -/
def buffer_info.Valid (info : buffer_info) : Prop :=
  0 ≤ info.size ∧ 1 ≤ info.itemsize ∧ info.nbytes < 2 ^ 63

instance (info : buffer_info) : Decidable info.Valid := by
  unfold buffer_info.Valid; infer_instance

/-! ## `MakeArrayFromBuffer` (routines.cc, lines 65 to 92) -/

/-- `MakeArrayFromBuffer`, the body of `frombuffer`.

`IsContiguous` stands for the test
`internal::IsContiguous(Shape{info.shape}, Strides{info.strides}, info.itemsize)`
whose definition is in a header that is not among the sources. `dtype` and
`device` are the values of `GetDtype(dtype)` and `GetDevice(device)`.
`%` and `/` truncate toward zero (`Int.tmod`, `Int.tdiv`); with an item size of
zero `n_bytes % info.itemsize` divides by zero, which is `trapped`. -/
def MakeArrayFromBuffer (IsContiguous : Shape → Strides → Int → Bool)
    (info : buffer_info) (dtype : Dtype) (count offset : Int) (device : Device) :
    Outcome ArrayBody :=
  let n_bytes := wrap64 (info.size * info.itemsize)
  if offset < 0 ∨ offset > n_bytes then
    .thrown (.ChainerxError
      ("offset must be non-negative and no greater than buffer length (" ++ toString n_bytes ++ ")"))
  else if !IsContiguous info.shape info.strides info.itemsize then
    .thrown (.ChainerxError "ndarray is not C-contiguous")
  else
    let n_bytes := wrap64 (n_bytes - offset)
    if count < 0 then
      if info.itemsize = 0 then .trapped
      else if Int.tmod n_bytes info.itemsize ≠ 0 then
        .thrown (.ChainerxError "buffer size must be a multiple of element size")
      else
        let count := wrap64 (Int.tdiv n_bytes info.itemsize)
        .returned (FromData [count] dtype ⟨info.ptr, .noop⟩ none offset device)
    else if n_bytes < wrap64 (count * info.itemsize) then
      .thrown (.ChainerxError "buffer is smaller than requested size")
    else
      .returned (FromData [count] dtype ⟨info.ptr, .noop⟩ none offset device)

/-- The text of the exception thrown by the offset check for a region of
`n` bytes. -/
def offsetMessage (n : Int) : String :=
  "offset must be non-negative and no greater than buffer length (" ++ toString n ++ ")"

/-- The `frombuffer` binding: `MakeArrayFromBuffer` with the defaults
`count = -1` and `offset = 0` for the arguments the caller leaves out. -/
def frombuffer (IsContiguous : Shape → Strides → Int → Bool)
    (info : buffer_info) (dtype : Dtype) (count : Option Int) (offset : Option Int)
    (device : Device) : Outcome ArrayBody :=
  MakeArrayFromBuffer IsContiguous info dtype (count.getD (-1)) (offset.getD 0) device

/-- Modelled from the spec: `internal::IsContiguous` is not among the sources.
Contiguity as the glossary has it: the strides are the row-major products of
the trailing dimension sizes, with no gaps. -/
def IsContiguous (shape : Shape) (strides : Strides) (item_size : Int) : Bool :=
  strides == contiguousStrides item_size shape

/-- A region of `n` elements of `itemsize` bytes each, laid out in one row. -/
def flatRegion (ptr : Nat) (n itemsize : Int) : buffer_info :=
  { ptr := ptr, itemsize := itemsize, size := n, shape := [n], strides := [itemsize] }

/-! ## The `take` binding (routines.cc, lines 279 to 299) -/

/-- Chains a call that can throw into the code that uses its value. -/
def Outcome.bind {α β : Type} (o : Outcome α) (f : α → Outcome β) : Outcome β :=
  match o with
  | .returned a => f a
  | .thrown e => .thrown e
  | .trapped => .trapped

/-- The arguments with which the `Take` routine is called. -/
structure TakeArgs where
  a : ArrayBody
  indices : ArrayBody
  axis : Int
  deriving DecidableEq, Repr

/-- The `take` binding. `PyObject` is what a `py::handle` refers to; the three
`py::isinstance` tests, the cast to an array body and the two converters
`MakeArray` and `MakeArrayFromNumpyArray` are declared in headers that are not
among the sources and are taken as parameters. The value is the call of `Take`
the binding ends in. -/
def take {PyObject : Type}
    (isArrayBody isSequence isNumpyArray : PyObject → Bool)
    (castArrayBody : PyObject → ArrayBody)
    (MakeArray : PyObject → Option Dtype → Bool → Device → Outcome ArrayBody)
    (MakeArrayFromNumpyArray : PyObject → Device → Outcome ArrayBody)
    (a : ArrayBody) (indices : PyObject) (axis : Option Int) : Outcome TakeArgs :=
  match axis with
  | none => .thrown (.NotImplementedError "axis=None is not yet supported for chainerx.take.")
  | some axis =>
    if isArrayBody indices then
      .returned ⟨a, castArrayBody indices, axis⟩
    else if isSequence indices then
      let dtype : Option Dtype := some .kInt64
      (MakeArray indices dtype false a.device).bind fun idx => .returned ⟨a, idx, axis⟩
    else if isNumpyArray indices then
      (MakeArrayFromNumpyArray indices a.device).bind fun idx => .returned ⟨a, idx, axis⟩
    else
      .thrown (.type_error
        "only integers, slices (`:`), sequence, numpy.ndarray and chainerx.newaxis (`None`) are valid indices")

/-! ## The `average_pool` binding (routines.cc, lines 984 to 1009) -/

/-- A value of the enumeration `AveragePoolPadMode`, as its underlying integer.
The enumeration is declared in a header that is not among the sources, so the
values of its enumerators `kZero` and `kIgnore` are parameters of the binding. -/
structure AveragePoolPadMode where
  underlying : Int
  deriving DecidableEq, Repr

/-- The value of `AveragePoolPadMode mode{}`: value-initialisation of an
enumeration gives the value whose underlying integer is zero. -/
def AveragePoolPadMode.valueInitialized : AveragePoolPadMode := ⟨0⟩

/-- Number of axes of an array. -/
def ArrayBody.ndim (x : ArrayBody) : Int := x.shape.length

/-- The arguments with which the `AveragePool` routine is called. -/
structure AveragePoolArgs where
  x : ArrayBody
  kernel_size : List Int
  stride : List Int
  pad : List Int
  pad_mode : AveragePoolPadMode
  deriving DecidableEq, Repr

set_option linter.unusedVariables false in
/-- The `average_pool` binding. `ToStackVector` and `is_none` are declared
outside the sources and are parameters; `kZero` and `kIgnore` are the two
enumerators. The local `mode` starts value-initialised and is then assigned by
one of the two branches, or the third branch throws. The value is the call of
`AveragePool` the binding ends in; the arguments of that call are evaluated
here from left to right. `ndim` is an `int8_t` in the source; the number of
axes of an array is small, so `x.ndim - 2` is inside its range. -/
def average_pool {PyObject : Type}
    (kZero kIgnore : AveragePoolPadMode)
    (ToStackVector : PyObject → Int → Outcome (List Int))
    (is_none : PyObject → Bool)
    (x : ArrayBody) (ksize stride pad : PyObject) (pad_mode : String) :
    Outcome AveragePoolArgs :=
  let ndim : Int := x.ndim - 2
  let mode : AveragePoolPadMode := AveragePoolPadMode.valueInitialized
  let mode : Outcome AveragePoolPadMode :=
    if pad_mode = "zero" then .returned kZero
    else if pad_mode = "ignore" then .returned kIgnore
    else .thrown (.value_error "pad_mode must be either of 'zero' or 'ignore'")
  mode.bind fun mode =>
    (ToStackVector ksize ndim).bind fun ksize_v =>
      (if is_none stride then ToStackVector ksize ndim else ToStackVector stride ndim).bind
        fun stride_v =>
          (ToStackVector pad ndim).bind fun pad_v =>
            .returned ⟨x, ksize_v, stride_v, pad_v, mode⟩

/-! ## The `conv`, `conv_transpose` and `max_pool` bindings
(routines.cc, lines 865 to 912 and 968 to 983) -/

/-- The arguments with which the `MaxPool` routine is called. -/
structure MaxPoolArgs where
  x : ArrayBody
  kernel_size : List Int
  stride : List Int
  pad : List Int
  cover_all : Bool
  deriving DecidableEq, Repr

/-- The `max_pool` binding. With `stride` equal to `None` the stride is the
conversion of `ksize`. -/
def max_pool {PyObject : Type}
    (ToStackVector : PyObject → Int → Outcome (List Int))
    (is_none : PyObject → Bool)
    (x : ArrayBody) (ksize stride pad : PyObject) (cover_all : Bool) :
    Outcome MaxPoolArgs :=
  let x_array := x
  let ndim : Int := x_array.ndim - 2
  (ToStackVector ksize ndim).bind fun ksize_v =>
    (if is_none stride then ToStackVector ksize ndim else ToStackVector stride ndim).bind
      fun stride_v =>
        (ToStackVector pad ndim).bind fun pad_v =>
          .returned ⟨x_array, ksize_v, stride_v, pad_v, cover_all⟩

/-! ## Registration of the elementwise routines
(routines.cc, `InitChainerxLogic`, `InitChainerxArithmetic`, `InitChainerxBinary`) -/

/-- The C++ types of the parameters of the registered lambdas. -/
inductive ParamType where
  | ArrayBodyPtr
  | Scalar
  | int8_t
  | bool
  | optional_vector_int8_t
  deriving DecidableEq, Repr

/-- One `m.def(name, lambda, ...)`: the Python name, the parameter types of the
lambda in order, the routine (or operator) the lambda calls, and for each
argument of that call the position of the lambda parameter passed there. -/
structure PyDef where
  name : String
  params : List ParamType
  routine : String
  args : List Nat
  deriving DecidableEq, Repr

/-- The registrations made by `InitChainerxLogic`, in source order. -/
def InitChainerxLogic : List PyDef :=
  [ ⟨"equal", [.ArrayBodyPtr, .ArrayBodyPtr], "Equal", [0, 1]⟩,
    ⟨"not_equal", [.ArrayBodyPtr, .ArrayBodyPtr], "NotEqual", [0, 1]⟩,
    ⟨"greater", [.ArrayBodyPtr, .ArrayBodyPtr], "Greater", [0, 1]⟩,
    ⟨"greater_equal", [.ArrayBodyPtr, .ArrayBodyPtr], "GreaterEqual", [0, 1]⟩,
    ⟨"less", [.ArrayBodyPtr, .ArrayBodyPtr], "Less", [0, 1]⟩,
    ⟨"less_equal", [.ArrayBodyPtr, .ArrayBodyPtr], "LessEqual", [0, 1]⟩,
    ⟨"logical_and", [.ArrayBodyPtr, .ArrayBodyPtr], "LogicalAnd", [0, 1]⟩,
    ⟨"logical_or", [.ArrayBodyPtr, .ArrayBodyPtr], "LogicalOr", [0, 1]⟩,
    ⟨"logical_not", [.ArrayBodyPtr], "LogicalNot", [0]⟩,
    ⟨"logical_xor", [.ArrayBodyPtr, .ArrayBodyPtr], "LogicalXor", [0, 1]⟩,
    ⟨"all", [.ArrayBodyPtr, .int8_t, .bool], "All", [0, 1, 2]⟩,
    ⟨"all", [.ArrayBodyPtr, .optional_vector_int8_t, .bool], "All", [0, 1, 2]⟩,
    ⟨"any", [.ArrayBodyPtr, .int8_t, .bool], "Any", [0, 1, 2]⟩,
    ⟨"any", [.ArrayBodyPtr, .optional_vector_int8_t, .bool], "Any", [0, 1, 2]⟩,
    ⟨"isnan", [.ArrayBodyPtr], "IsNan", [0]⟩,
    ⟨"isinf", [.ArrayBodyPtr], "IsInf", [0]⟩,
    ⟨"isfinite", [.ArrayBodyPtr], "IsFinite", [0]⟩ ]

/-- The registrations made by `InitChainerxArithmetic`, in source order. -/
def InitChainerxArithmetic : List PyDef :=
  [ ⟨"negative", [.ArrayBodyPtr], "Negative", [0]⟩,
    ⟨"add", [.ArrayBodyPtr, .ArrayBodyPtr], "operator+", [0, 1]⟩,
    ⟨"add", [.ArrayBodyPtr, .Scalar], "Add", [0, 1]⟩,
    ⟨"add", [.Scalar, .ArrayBodyPtr], "Add", [0, 1]⟩,
    ⟨"subtract", [.ArrayBodyPtr, .ArrayBodyPtr], "operator-", [0, 1]⟩,
    ⟨"subtract", [.ArrayBodyPtr, .Scalar], "Subtract", [0, 1]⟩,
    ⟨"subtract", [.Scalar, .ArrayBodyPtr], "Subtract", [0, 1]⟩,
    ⟨"multiply", [.ArrayBodyPtr, .ArrayBodyPtr], "operator*", [0, 1]⟩,
    ⟨"multiply", [.ArrayBodyPtr, .Scalar], "Multiply", [0, 1]⟩,
    ⟨"multiply", [.Scalar, .ArrayBodyPtr], "Multiply", [0, 1]⟩,
    ⟨"divide", [.ArrayBodyPtr, .ArrayBodyPtr], "operator/", [0, 1]⟩,
    ⟨"divide", [.ArrayBodyPtr, .Scalar], "Divide", [0, 1]⟩,
    ⟨"divide", [.Scalar, .ArrayBodyPtr], "Divide", [0, 1]⟩,
    ⟨"floor_divide", [.ArrayBodyPtr, .ArrayBodyPtr], "FloorDivide", [0, 1]⟩,
    ⟨"floor_divide", [.ArrayBodyPtr, .Scalar], "FloorDivide", [0, 1]⟩,
    ⟨"floor_divide", [.Scalar, .ArrayBodyPtr], "FloorDivide", [0, 1]⟩,
    ⟨"true_divide", [.ArrayBodyPtr, .ArrayBodyPtr], "TrueDivide", [0, 1]⟩,
    ⟨"true_divide", [.ArrayBodyPtr, .Scalar], "TrueDivide", [0, 1]⟩,
    ⟨"true_divide", [.Scalar, .ArrayBodyPtr], "TrueDivide", [0, 1]⟩,
    ⟨"reciprocal", [.ArrayBodyPtr], "Reciprocal", [0]⟩,
    ⟨"power", [.ArrayBodyPtr, .ArrayBodyPtr], "Power", [0, 1]⟩,
    ⟨"power", [.ArrayBodyPtr, .Scalar], "Power", [0, 1]⟩,
    ⟨"power", [.Scalar, .ArrayBodyPtr], "Power", [0, 1]⟩ ]

/-- The registrations made by `InitChainerxBinary`, in source order. -/
def InitChainerxBinary : List PyDef :=
  [ ⟨"bitwise_and", [.ArrayBodyPtr, .ArrayBodyPtr], "BitwiseAnd", [0, 1]⟩,
    ⟨"bitwise_and", [.ArrayBodyPtr, .Scalar], "BitwiseAnd", [0, 1]⟩,
    ⟨"bitwise_and", [.Scalar, .ArrayBodyPtr], "BitwiseAnd", [0, 1]⟩,
    ⟨"bitwise_or", [.ArrayBodyPtr, .ArrayBodyPtr], "BitwiseOr", [0, 1]⟩,
    ⟨"bitwise_or", [.ArrayBodyPtr, .Scalar], "BitwiseOr", [0, 1]⟩,
    ⟨"bitwise_or", [.Scalar, .ArrayBodyPtr], "BitwiseOr", [0, 1]⟩,
    ⟨"bitwise_xor", [.ArrayBodyPtr, .ArrayBodyPtr], "BitwiseXor", [0, 1]⟩,
    ⟨"bitwise_xor", [.ArrayBodyPtr, .Scalar], "BitwiseXor", [0, 1]⟩,
    ⟨"bitwise_xor", [.Scalar, .ArrayBodyPtr], "BitwiseXor", [0, 1]⟩ ]

/-- Everything the three functions register on the module. No other function
of routines.cc registers any of the names that occur here. -/
def elementwiseDefs : List PyDef :=
  InitChainerxLogic ++ InitChainerxArithmetic ++ InitChainerxBinary

/-- The module has an overload of `name` with exactly these parameter types. -/
def hasOverload (m : List PyDef) (name : String) (params : List ParamType) : Bool :=
  m.any fun d => d.name == name && d.params == params

/-- The routine has the array-array overload and the array-scalar overloads in
both operand orders. -/
def OverloadComplete (m : List PyDef) (name : String) : Bool :=
  hasOverload m name [.ArrayBodyPtr, .ArrayBodyPtr] &&
    hasOverload m name [.ArrayBodyPtr, .Scalar] &&
    hasOverload m name [.Scalar, .ArrayBodyPtr]

/-- The binary arithmetic routines. -/
def arithmeticNames : List String :=
  ["add", "subtract", "multiply", "divide", "floor_divide", "true_divide", "power"]

/-- The binary bitwise routines. -/
def bitwiseNames : List String := ["bitwise_and", "bitwise_or", "bitwise_xor"]

/-- The comparison routines. -/
def comparisonNames : List String :=
  ["equal", "not_equal", "greater", "greater_equal", "less", "less_equal"]

/-- The binary logical routines. -/
def logicalNames : List String := ["logical_and", "logical_or", "logical_xor"]

/-! ## Shape and axis normalisation (section 4.1 of the specification) -/

/-- Modelled from the spec: the routines of section 4.1 are not among the
sources. The two error kinds of section 7 that they fail with. -/
inductive SpecError where
  | InvalidAxisError
  | BroadcastError
  deriving DecidableEq, Repr

/-- Modelled from the spec: `ResolveAxis` is not among the sources. Section 4.1:
it accepts a possibly-negative axis, fails with `InvalidAxisError` if
`axis < -rank` or `axis ≥ rank`, and otherwise returns a valid index in
`[0, rank)`; a negative axis counts from the end. -/
def ResolveAxis (rank axis : Int) : Except SpecError Int :=
  if axis < -rank ∨ axis ≥ rank then .error .InvalidAxisError
  else if axis < 0 then .ok (axis + rank)
  else .ok axis

/-- The two dimensions are equal or one of them is 1. -/
def dimsCompatible (d1 d2 : Int) : Bool := d1 == d2 || d1 == 1 || d2 == 1

/-- Modelled from the spec: `BroadcastShapes` is not among the sources. One
pair of aligned dimensions: by section 4.1 the pair must be equal or one of
them must be 1, else the routine fails with `BroadcastError`; by section 8 the
dimension of the result is the max of the two. -/
def broadcastDim (d1 d2 : Int) : Except SpecError Int :=
  if dimsCompatible d1 d2 then .ok (max d1 d2)
  else .error .BroadcastError

/-- Modelled from the spec: section 4.1 on two shapes given innermost axis
first, so that equal positions are aligned; where only one shape has a
dimension, the result has that dimension. -/
def broadcastAligned : List Int → List Int → Except SpecError (List Int)
  | [], ys => .ok ys
  | x :: xs, [] => .ok (x :: xs)
  | x :: xs, y :: ys =>
    match broadcastDim x y, broadcastAligned xs ys with
    | .ok d, .ok r => .ok (d :: r)
    | _, _ => .error .BroadcastError

/-- Modelled from the spec: `BroadcastShapes` is not among the sources. Section
4.1: it computes the result shape under trailing-dimension alignment (shapes
are right-aligned; each dimension pair must be equal or one of them must be 1,
else it fails with `BroadcastError`). Section 8: each dimension of the result
equals the max of the two input dimensions at that right-aligned position. -/
def BroadcastShapes (a b : Shape) : Except SpecError Shape :=
  match broadcastAligned a.reverse b.reverse with
  | .ok r => .ok r.reverse
  | .error e => .error e

/-- Two shapes are broadcastable: right-aligned, every pair of dimensions is
equal or has a 1. -/
def Broadcastable (a b : Shape) : Bool :=
  (List.zip a.reverse b.reverse).all fun p => dimsCompatible p.1 p.2

/-- The dimension of a shape at position `i` counted from the right, if the
shape is that long. -/
def dimFromRight (s : Shape) (i : Nat) : Option Int := s.reverse[i]?

/-- The max of the dimensions that two shapes have at one right-aligned
position: of both where both have one, else the only one there is. -/
def alignedMax : Option Int → Option Int → Option Int
  | some x, some y => some (max x y)
  | some x, none => some x
  | none, some y => some y
  | none, none => none

/-! ## The `arange` binding (routines.cc, lines 185 to 208) -/

/-- Modelled from the spec: `chainerx/dtype.h` is not among the sources. The
numeric kinds of a scalar (section 2): boolean, integer, floating. -/
inductive DtypeKind where
  | kBool
  | kInt
  | kFloat
  deriving DecidableEq, Repr

/-- Modelled from the spec: `chainerx/scalar.h` is not among the sources. A
scalar is a numeric kind with a value (section 3). `Scalar{v, kind}` of the
source is `⟨kind, v⟩`. -/
structure Scalar where
  kind : DtypeKind
  value : Rat
  deriving DecidableEq, Repr

/-- The call of `Arange` the binding ends in: the overload without a dtype or
the overload with one. -/
inductive ArangeCall where
  | Arange (start stop step : Scalar) (device : Device)
  | ArangeDtype (start stop step : Scalar) (dtype : Dtype) (device : Device)
  deriving DecidableEq, Repr

/-- The first argument of the call. -/
def ArangeCall.start : ArangeCall → Scalar
  | .Arange s _ _ _ => s
  | .ArangeDtype s _ _ _ _ => s

/-- The second argument of the call. -/
def ArangeCall.stop : ArangeCall → Scalar
  | .Arange _ s _ _ => s
  | .ArangeDtype _ s _ _ _ => s

/-- The third argument of the call. -/
def ArangeCall.step : ArangeCall → Scalar
  | .Arange _ _ s _ => s
  | .ArangeDtype _ _ s _ _ => s

/-- The dtype argument of the call, if the overload has one. -/
def ArangeCall.dtype : ArangeCall → Option Dtype
  | .Arange _ _ _ _ => none
  | .ArangeDtype _ _ _ d _ => some d

/-- The `arange` binding. `dtype` is `none` for the Python `None` and
otherwise the value of `GetDtype(dtype)`; `device` is the value of
`GetDevice(device)`. -/
def arange (start_or_stop : Scalar) (maybe_stop maybe_step : Option Scalar)
    (dtype : Option Dtype) (device : Device) : Outcome ArangeCall :=
  let start_or_stop_dtype_kind := start_or_stop.kind
  let start : Scalar := ⟨start_or_stop_dtype_kind, 0⟩
  let stop : Scalar := start_or_stop
  let step : Scalar := match maybe_step with
    | some v => v
    | none => ⟨start_or_stop_dtype_kind, 1⟩
  let start_stop : Scalar × Scalar := match maybe_stop with
    | some v => (start_or_stop, v)
    | none => (start, stop)
  match dtype with
  | none => .returned (.Arange start_stop.1 start_stop.2 step device)
  | some d => .returned (.ArangeDtype start_stop.1 start_stop.2 step d device)

/-! ## Values of type `double` -/

/-- A value of the C++ type `double`: a finite value `significand * 2 ^ exponent`,
an infinity, or a NaN. -/
inductive double where
  | finite (significand exponent : Int)
  | infinity (negative : Bool)
  | nan
  deriving DecidableEq, Repr

/-- The finite value is one that the 64-bit binary format has: a significand
of at most 53 bits and an exponent in the range of the format. -/
def double.IsBinary64 : double → Prop
  | .finite m e => m.natAbs < 2 ^ 53 ∧ -1074 ≤ e ∧ e ≤ 971
  | _ => True

/-- The comparison `==` of two doubles: finite values are compared by value,
infinities by sign, and a NaN is equal to nothing. -/
def double.eq : double → double → Bool
  | .finite m1 e1, .finite m2 e2 =>
    m1 * 2 ^ (e1 - min e1 e2).toNat == m2 * 2 ^ (e2 - min e1 e2).toNat
  | .infinity s1, .infinity s2 => s1 == s2
  | _, _ => false

/-- The double is finite and not a whole number. -/
def double.HasFraction : double → Prop
  | .finite m e => e < 0 ∧ m % 2 ^ (-e).toNat ≠ 0
  | _ => False

/-- The value with its fractional part discarded (rounding toward zero), for a
finite double. -/
def double.truncate : double → Option Int
  | .finite m e => some (if 0 ≤ e then m * 2 ^ e.toNat else Int.tdiv m (2 ^ (-e).toNat))
  | _ => none

/-- `static_cast<int64_t>` of a double: the truncated value. C++ defines no
behaviour when the truncated value is not representable, and none for an
infinity or a NaN. -/
def static_cast_int64 (v : double) : Outcome Int :=
  match v.truncate with
  | some t => if InInt64 t then .returned t else .trapped
  | none => .trapped

/-- The natural number with at most 53 significant bits that is nearest to
`a`, ties going to the even significand. -/
def roundToSignificand (a : Nat) : Nat :=
  if a < 2 ^ 53 then a
  else
    let e := Nat.log2 a - 52
    let q := a / 2 ^ e
    let r := a % 2 ^ e
    let half := 2 ^ (e - 1)
    let q1 := if r < half then q else if half < r then q + 1 else if q % 2 = 0 then q else q + 1
    q1 * 2 ^ e

/-- `static_cast<double>` of an `int64_t`: the nearest double, written with
exponent 0. -/
def static_cast_double (n : Int) : double :=
  .finite (if n < 0 then -(roundToSignificand n.natAbs : Int) else roundToSignificand n.natAbs) 0

/-! ## The `split` binding (routines.cc, lines 514 to 601) -/

/-- The operations of pybind11 and of Python objects that `split` uses. They
are declared outside the sources and are parameters of the binding:
the `py::isinstance` tests, the casts `py::cast<int64_t>`, `py::cast<double>`
and `py::cast<std::vector<int64_t>>` (which throw `cast_error` on an object
they cannot convert), the members `ndim()`, `size()`, `dtype().kind()` and
`attr("tolist")()` of a numpy array, the items of a Python list, and `repr`. -/
structure PyApi (PyObject : Type) where
  isinstance_int : PyObject → Bool
  isinstance_float : PyObject → Bool
  isinstance_array : PyObject → Bool
  isinstance_sequence : PyObject → Bool
  cast_int64 : PyObject → Outcome Int
  cast_double : PyObject → Outcome double
  cast_vector_int64 : PyObject → Outcome (List Int)
  array_ndim : PyObject → Int
  array_size : PyObject → Int
  array_dtype_kind : PyObject → Char
  tolist : PyObject → PyObject
  list_items : PyObject → List PyObject
  repr : PyObject → String

/-- The call of `Split` the binding ends in: the overload that takes a number
of sections or the overload that takes a list of indices. -/
inductive SplitCall where
  | sections (ary : ArrayBody) (sections : Int) (axis : Int)
  | indices (ary : ArrayBody) (indices : List Int) (axis : Int)
  deriving DecidableEq, Repr

/-- The local lambda `split_sections`. -/
def split_sections (ary : ArrayBody) (sections : Int) (axis : Int) : Outcome SplitCall :=
  .returned (.sections ary sections axis)

/-- The local lambda `split_indices`. -/
def split_indices (ary : ArrayBody) (indices : List Int) (axis : Int) : Outcome SplitCall :=
  .returned (.indices ary indices axis)

/-- The local lambda `pyfloat_to_sections_or_value_error`: converts a Python
float to a number of sections and throws `value_error` if the value has a
non-zero fraction. It is only called on objects that passed the test for
`py::float_`, which is what its assertion states. -/
def pyfloat_to_sections_or_value_error {PyObject : Type} (api : PyApi PyObject)
    (num : PyObject) : Outcome Int :=
  (api.cast_double num).bind fun num_fp =>
    (static_cast_int64 num_fp).bind fun num_int =>
      if !(static_cast_double num_int).eq num_fp then
        .thrown (.value_error "Sections must be an integer.")
      else .returned num_int

/-- The loop that casts every item of a Python list to `int64_t`. -/
def castItems {PyObject : Type} (api : PyApi PyObject) : List PyObject → Outcome (List Int)
  | [] => .returned []
  | item :: rest =>
    (api.cast_int64 item).bind fun v => (castItems api rest).bind fun vs => .returned (v :: vs)

/-- The `split` binding. -/
def split {PyObject : Type} (api : PyApi PyObject)
    (ary : ArrayBody) (indices_or_sections : PyObject) (axis : Int) : Outcome SplitCall :=
  if api.isinstance_int indices_or_sections then
    (api.cast_int64 indices_or_sections).bind fun sections => split_sections ary sections axis
  else if api.isinstance_float indices_or_sections then
    (pyfloat_to_sections_or_value_error api indices_or_sections).bind fun sections =>
      split_sections ary sections axis
  else if api.isinstance_array indices_or_sections then
    let np_ios := indices_or_sections
    if api.array_ndim np_ios ≥ 2 then
      .thrown (.value_error ("Too many dimensions of indices: " ++ toString (api.array_ndim np_ios)))
    else if api.array_ndim np_ios = 0 then
      let scalar_np := api.tolist np_ios
      (if api.isinstance_int scalar_np then api.cast_int64 scalar_np
        else if api.isinstance_float scalar_np then
          pyfloat_to_sections_or_value_error api scalar_np
        else .thrown (.type_error "Sections must be an integer.")).bind fun sections =>
        split_sections ary sections axis
    else if api.array_size np_ios = 0 then
      split_indices ary [] axis
    else if api.array_dtype_kind np_ios ≠ 'i' then
      .thrown (.type_error "Indices must be integers.")
    else
      let indices_pylist := api.tolist np_ios
      (castItems api (api.list_items indices_pylist)).bind fun indices =>
        split_indices ary indices axis
  else if api.isinstance_sequence indices_or_sections then
    match api.cast_vector_int64 indices_or_sections with
    | .returned indices => split_indices ary indices axis
    | .thrown (.cast_error _) =>
      .thrown (.type_error ("Indices not understood: " ++ api.repr indices_or_sections))
    | .thrown e => .thrown e
    | .trapped => .trapped
  else
    .thrown (.type_error
      ("indices_or_sections not understood: " ++ api.repr indices_or_sections))

/-- An example of Python objects: integers, floats and everything else. -/
inductive ExampleObject where
  | int (v : Int)
  | float (v : double)
  | other
  deriving DecidableEq, Repr

/-- An example of the Python operations on `ExampleObject`. -/
def exampleApi : PyApi ExampleObject :=
  { isinstance_int := fun o => match o with
      | .int _ => true
      | _ => false
    isinstance_float := fun o => match o with
      | .float _ => true
      | _ => false
    isinstance_array := fun _ => false
    isinstance_sequence := fun _ => false
    cast_int64 := fun o => match o with
      | .int v => if InInt64 v then .returned v else .thrown (.cast_error "Unable to cast")
      | _ => .thrown (.cast_error "Unable to cast")
    cast_double := fun o => match o with
      | .float v => .returned v
      | .int v => .returned (static_cast_double v)
      | .other => .thrown (.cast_error "Unable to cast")
    cast_vector_int64 := fun _ => .thrown (.cast_error "Unable to cast")
    array_ndim := fun _ => 0
    array_size := fun _ => 0
    array_dtype_kind := fun _ => 'O'
    tolist := fun o => o
    list_items := fun _ => []
    repr := fun _ => "object" }

/-- An example of the Python values that `tolist` produces: an integer, a
float, a string, or a list of integers. -/
inductive ExampleValue where
  | int (v : Int)
  | float (v : double)
  | str (s : String)
  | list (items : List Int)
  deriving DecidableEq, Repr

/-- An example of Python objects that includes numpy arrays: a plain value,
or an array with its number of dimensions, its size, the kind of its dtype and
the value its `tolist` returns. -/
inductive ExampleHandle where
  | value (v : ExampleValue)
  | ndarray (ndim size : Int) (kind : Char) (tolist : ExampleValue)
  deriving DecidableEq, Repr

/-- An example of the Python operations on `ExampleHandle`. -/
def exampleArrayApi : PyApi ExampleHandle :=
  { isinstance_int := fun o => match o with
      | .value (.int _) => true
      | _ => false
    isinstance_float := fun o => match o with
      | .value (.float _) => true
      | _ => false
    isinstance_array := fun o => match o with
      | .ndarray _ _ _ _ => true
      | _ => false
    isinstance_sequence := fun o => match o with
      | .value (.list _) => true
      | .value (.str _) => true
      | .ndarray _ _ _ _ => true
      | _ => false
    cast_int64 := fun o => match o with
      | .value (.int v) => if InInt64 v then .returned v else .thrown (.cast_error "Unable to cast")
      | _ => .thrown (.cast_error "Unable to cast")
    cast_double := fun o => match o with
      | .value (.float v) => .returned v
      | .value (.int v) => .returned (static_cast_double v)
      | _ => .thrown (.cast_error "Unable to cast")
    cast_vector_int64 := fun o => match o with
      | .value (.list items) =>
        if items.all fun v => decide (InInt64 v) then .returned items
        else .thrown (.cast_error "Unable to cast")
      | _ => .thrown (.cast_error "Unable to cast")
    array_ndim := fun o => match o with
      | .ndarray ndim _ _ _ => ndim
      | _ => 0
    array_size := fun o => match o with
      | .ndarray _ size _ _ => size
      | _ => 0
    array_dtype_kind := fun o => match o with
      | .ndarray _ _ kind _ => kind
      | _ => 'O'
    tolist := fun o => match o with
      | .ndarray _ _ _ v => .value v
      | other => other
    list_items := fun o => match o with
      | .value (.list items) => items.map fun v => .value (.int v)
      | _ => []
    repr := fun _ => "object" }

/-! ## Operands of the registered binary routines -/

/-- An actual argument of a registered lambda: an array or a scalar. -/
inductive Operand where
  | array (a : ArrayBody)
  | scalar (s : Scalar)
  deriving DecidableEq, Repr

/-- The arguments that the lambda of a registration hands to its routine, in
the order of the routine's parameters, when it is called with the given
actual arguments: position `i` of the call receives the actual argument whose
position is `args[i]`. -/
def PyDef.operands (d : PyDef) (actuals : List Operand) : List Operand :=
  d.args.filterMap fun i => actuals[i]?

/-- The binary routines whose operand order matters. -/
def orderedNames : List String :=
  ["subtract", "divide", "floor_divide", "true_divide", "power"]

/-! ## The `eye` binding (routines.cc, lines 237 to 248) -/

/-- The arguments with which the `Eye` routine is called. -/
structure EyeArgs where
  n : Int
  m : Int
  k : Int
  dtype : Dtype
  device : Device
  deriving DecidableEq, Repr

/-- The `eye` binding. `M` is optional: an absent `m` is assigned `n` before
`m.value()` is read, so the value read is `n` then and the given one
otherwise (at that point `m` is never empty). `dtype` and `device` are the values of `GetDtype(dtype)` and
`GetDevice(device)`. -/
def eye (n : Int) (m : Option Int) (k : Int) (dtype : Dtype) (device : Device) :
    Outcome EyeArgs :=
  let m : Option Int := if !m.isSome then some n else m
  let m_value : Int := match m with
    | some v => v
    | none => n
  .returned ⟨n, m_value, k, dtype, device⟩

/-! ## Example arguments -/

/-- An example of `ToStackVector` on handles that are `None` or hold one
integer: the integer is repeated `size` times, `None` is refused. -/
def exampleToStackVector : Option Int → Int → Outcome (List Int)
  | some v, size => .returned (List.replicate size.toNat v)
  | none, _ => .thrown (.type_error "Only int or tuple is allowed")

/-- An example input of the pooling bindings: a batch of 2 images with 3
channels and 8 by 8 pixels. -/
def exampleImages : ArrayBody :=
  FromData [2, 3, 8, 8] .kFloat32 ⟨4096, .deviceFree⟩ none 0 ⟨"native", 0⟩

end chainerx

namespace xchainer

open chainerx

/-! ## The routine layer of convolution (xchainer/routines/connection.cc) -/

/-- The two virtual methods of `Device` that connection.cc calls. The class and
its implementations are declared outside the sources, so the implementations
are a parameter: for each device, what its method does with the arguments. -/
structure DeviceMethods where
  Conv : Device → ArrayBody → ArrayBody → Option ArrayBody → List Int → List Int → Bool →
    Outcome ArrayBody
  ConvTranspose : Device → ArrayBody → ArrayBody → Option ArrayBody → List Int → List Int →
    Option (List Int) → Outcome ArrayBody

/-- The routine `Conv`: the `Conv` method of the device of `x`. -/
def Conv (d : DeviceMethods) (x w : ArrayBody) (b : Option ArrayBody)
    (stride pad : List Int) (cover_all : Bool) : Outcome ArrayBody :=
  d.Conv x.device x w b stride pad cover_all

/-- The routine `ConvTranspose`: the `ConvTranspose` method of the device of `x`. -/
def ConvTranspose (d : DeviceMethods) (x w : ArrayBody) (b : Option ArrayBody)
    (stride pad : List Int) (out_size : Option (List Int)) : Outcome ArrayBody :=
  d.ConvTranspose x.device x w b stride pad out_size

/-- An example of device methods: every device returns its input array. -/
def echoDevices : DeviceMethods :=
  { Conv := fun _ x _ _ _ _ _ => .returned x
    ConvTranspose := fun _ x _ _ _ _ _ => .returned x }

/-- An example of device methods that differ between devices: the devices of
the backend "native" return their input array, all others throw. -/
def nativeOnlyDevices : DeviceMethods :=
  { Conv := fun dev x _ _ _ _ _ =>
      if dev.backend = "native" then .returned x
      else .thrown (.ChainerxError "not implemented")
    ConvTranspose := fun dev x _ _ _ _ _ =>
      if dev.backend = "native" then .returned x
      else .thrown (.ChainerxError "not implemented") }

/-- An example kernel array that lives on the device "cuda:0". -/
def exampleKernelOnCuda : ArrayBody :=
  FromData [4, 3, 3, 3] .kFloat32 ⟨8192, .deviceFree⟩ none 0 ⟨"cuda", 0⟩

/-! ## The test of `CudaDevice` (xchainer/cuda/cuda_device_test.cc) -/

end xchainer

namespace chainerx

/-! ## Machine-integer lemmas -/

theorem wrap64_of_inInt64 {x : Int} (h : InInt64 x) : wrap64 x = x := by
  unfold InInt64 at h
  unfold wrap64
  omega

theorem nbytes_wrap {info : buffer_info} (h : info.Valid) :
    wrap64 (info.size * info.itemsize) = info.nbytes := by
  obtain ⟨h0, h1, h2⟩ := h
  have hn : 0 ≤ info.nbytes := Int.mul_nonneg h0 (by omega)
  exact wrap64_of_inInt64 ⟨by unfold buffer_info.nbytes at hn; omega, h2⟩

theorem nbytes_nonneg {info : buffer_info} (h : info.Valid) : 0 ≤ info.nbytes :=
  Int.mul_nonneg h.1 (by have := h.2.1; omega)

/-! ## Shape of `MakeArrayFromBuffer` past its first two checks -/

theorem offsetMessage_front (n : Int) : (offsetMessage n).data.head? = some (Char.ofNat 111) := by
  unfold offsetMessage
  simp [String.data_append]

theorem offsetMessage_ne_contiguous (n : Int) :
    offsetMessage n ≠ "ndarray is not C-contiguous" := by
  intro h
  have h1 := offsetMessage_front n
  rw [h] at h1
  revert h1
  decide

theorem offsetMessage_ne_multiple (n : Int) :
    offsetMessage n ≠ "buffer size must be a multiple of element size" := by
  intro h
  have h1 := offsetMessage_front n
  rw [h] at h1
  revert h1
  decide

theorem offsetMessage_ne_smaller (n : Int) :
    offsetMessage n ≠ "buffer is smaller than requested size" := by
  intro h
  have h1 := offsetMessage_front n
  rw [h] at h1
  revert h1
  decide

/-- For a valid region and an offset within it, the two subtractions and the
division of the source stay inside the 64-bit range, so the function is the
cascade of its last three checks on exact integers (the product
`count * itemsize` alone is still reduced). -/
theorem MakeArrayFromBuffer_in_range (IsC : Shape → Strides → Int → Bool)
    (info : buffer_info) (dtype : Dtype) (count offset : Int) (device : Device)
    (hv : info.Valid) (h0 : 0 ≤ offset) (h1 : offset ≤ info.nbytes) :
    MakeArrayFromBuffer IsC info dtype count offset device =
      if IsC info.shape info.strides info.itemsize = false then
        .thrown (.ChainerxError "ndarray is not C-contiguous")
      else if count < 0 then
        if (info.nbytes - offset) % info.itemsize ≠ 0 then
          .thrown (.ChainerxError "buffer size must be a multiple of element size")
        else
          .returned (FromData [(info.nbytes - offset) / info.itemsize] dtype
            ⟨info.ptr, .noop⟩ none offset device)
      else if info.nbytes - offset < wrap64 (count * info.itemsize) then
        .thrown (.ChainerxError "buffer is smaller than requested size")
      else
        .returned (FromData [count] dtype ⟨info.ptr, .noop⟩ none offset device) := by
  have hw := nbytes_wrap hv
  have hnn := nbytes_nonneg hv
  obtain ⟨hs, hi, hlt⟩ := hv
  have hsub : wrap64 (info.nbytes - offset) = info.nbytes - offset :=
    wrap64_of_inInt64 ⟨by omega, by omega⟩
  have hr : 0 ≤ info.nbytes - offset := by omega
  have hmod : Int.tmod (info.nbytes - offset) info.itemsize
      = (info.nbytes - offset) % info.itemsize := Int.tmod_eq_emod hr (by omega)
  have hdiv : Int.tdiv (info.nbytes - offset) info.itemsize
      = (info.nbytes - offset) / info.itemsize := Int.tdiv_eq_ediv hr (by omega)
  have hq0 : 0 ≤ (info.nbytes - offset) / info.itemsize := Int.ediv_nonneg hr (by omega)
  have hq1 : (info.nbytes - offset) / info.itemsize ≤ info.nbytes - offset :=
    Int.ediv_le_self _ hr
  have hwq : wrap64 ((info.nbytes - offset) / info.itemsize)
      = (info.nbytes - offset) / info.itemsize := wrap64_of_inInt64 ⟨by omega, by omega⟩
  have hne : info.itemsize ≠ 0 := by omega
  have hcond : ¬ (offset < 0 ∨ offset > info.nbytes) := by omega
  unfold MakeArrayFromBuffer
  simp only [hw, hsub, hmod, hdiv, hwq, hcond, hne, if_false]
  cases IsC info.shape info.strides info.itemsize <;> simp

/-! ## Buffer import: the offset check -/

/-- C1. For every region whose byte length (element count times item size) is
representable, every count, dtype and device: an offset that is negative or
greater than the byte length makes the import throw the offset error, so no
array is produced; an offset equal to the byte length does not end in the
offset error. -/
theorem MakeArrayFromBuffer_offset_check (IsC : Shape → Strides → Int → Bool)
    (info : buffer_info) (dtype : Dtype) (count offset : Int) (device : Device)
    (hlen : InInt64 info.nbytes) :
    ((offset < 0 ∨ offset > info.nbytes) →
      MakeArrayFromBuffer IsC info dtype count offset device
        = .thrown (.ChainerxError (offsetMessage info.nbytes))) ∧
    (0 ≤ info.nbytes → offset = info.nbytes →
      MakeArrayFromBuffer IsC info dtype count offset device
        ≠ .thrown (.ChainerxError (offsetMessage info.nbytes))) := by
  have hw : wrap64 (info.size * info.itemsize) = info.nbytes := wrap64_of_inInt64 hlen
  constructor
  · intro h
    unfold MakeArrayFromBuffer
    simp only [hw]
    rw [if_pos h]
    rfl
  · intro hnn heq
    have hcond : ¬ (offset < 0 ∨ offset > info.nbytes) := by omega
    have a1 := offsetMessage_ne_contiguous info.nbytes
    have a2 := offsetMessage_ne_multiple info.nbytes
    have a3 := offsetMessage_ne_smaller info.nbytes
    unfold MakeArrayFromBuffer
    simp only [hw]
    rw [if_neg hcond]
    split_ifs <;> simp [Ne.symm a1, Ne.symm a2, Ne.symm a3]

theorem MakeArrayFromBuffer_offset_check_witness :
    InInt64 (flatRegion 4096 4 4).nbytes ∧ ((17 : Int) < 0 ∨ (17 : Int) > (flatRegion 4096 4 4).nbytes) ∧
      MakeArrayFromBuffer IsContiguous (flatRegion 4096 4 4) .kFloat32 (-1) 17 ⟨"native", 0⟩
        = .thrown (.ChainerxError (offsetMessage (flatRegion 4096 4 4).nbytes)) :=
  ⟨by decide, by decide,
    (MakeArrayFromBuffer_offset_check IsContiguous (flatRegion 4096 4 4) .kFloat32 (-1) 17
      ⟨"native", 0⟩ (by decide)).1 (by decide)⟩

/-! ## Buffer import: the contiguity check -/

/-- C2. For every region that the contiguity test rejects, every count, offset,
dtype and device: the import throws (the offset error when the offset is out of
range, the contiguity error otherwise) and so produces no array. -/
theorem MakeArrayFromBuffer_not_contiguous (IsC : Shape → Strides → Int → Bool)
    (info : buffer_info) (dtype : Dtype) (count offset : Int) (device : Device)
    (hnc : IsC info.shape info.strides info.itemsize = false) :
    MakeArrayFromBuffer IsC info dtype count offset device
        = .thrown (.ChainerxError (offsetMessage (wrap64 (info.size * info.itemsize)))) ∨
      MakeArrayFromBuffer IsC info dtype count offset device
        = .thrown (.ChainerxError "ndarray is not C-contiguous") := by
  unfold MakeArrayFromBuffer
  by_cases h : offset < 0 ∨ offset > wrap64 (info.size * info.itemsize)
  · left
    simp only []
    rw [if_pos h]
    rfl
  · right
    simp only []
    rw [if_neg h]
    simp [hnc]

theorem MakeArrayFromBuffer_not_contiguous_witness :
    IsContiguous [4] [8] 4 = false ∧
      (MakeArrayFromBuffer IsContiguous ⟨4096, 4, 4, [4], [8]⟩ .kFloat32 2 3 ⟨"native", 0⟩
          = .thrown (.ChainerxError (offsetMessage (wrap64 (4 * 4)))) ∨
        MakeArrayFromBuffer IsContiguous ⟨4096, 4, 4, [4], [8]⟩ .kFloat32 2 3 ⟨"native", 0⟩
          = .thrown (.ChainerxError "ndarray is not C-contiguous")) :=
  ⟨by decide,
    MakeArrayFromBuffer_not_contiguous IsContiguous ⟨4096, 4, 4, [4], [8]⟩ .kFloat32 2 3
      ⟨"native", 0⟩ (by decide)⟩

/-! ## Buffer import: inferred count -/

/-- Where the product `count * itemsize` is representable, an explicit count is
checked exactly: the import throws if and only if fewer than `count * itemsize`
bytes remain after the offset, and otherwise returns an array of `count`
elements, also when more bytes remain. -/
theorem MakeArrayFromBuffer_explicit_count_no_overflow (IsC : Shape → Strides → Int → Bool)
    (info : buffer_info) (dtype : Dtype) (count offset : Int) (device : Device)
    (hv : info.Valid) (hc : IsC info.shape info.strides info.itemsize = true)
    (h0 : 0 ≤ offset) (h1 : offset ≤ info.nbytes) (hcount : 0 ≤ count)
    (hprod : InInt64 (count * info.itemsize)) :
    (MakeArrayFromBuffer IsC info dtype count offset device
          = .thrown (.ChainerxError "buffer is smaller than requested size") ↔
        info.nbytes - offset < count * info.itemsize) ∧
      (count * info.itemsize ≤ info.nbytes - offset →
        MakeArrayFromBuffer IsC info dtype count offset device
          = .returned (FromData [count] dtype ⟨info.ptr, .noop⟩ none offset device)) := by
  rw [MakeArrayFromBuffer_in_range IsC info dtype count offset device hv h0 h1]
  have hnc : ¬ count < 0 := by omega
  simp only [hc, if_neg hnc, wrap64_of_inInt64 hprod]
  by_cases hlt : info.nbytes - offset < count * info.itemsize
  · simp [hlt]
  · simp [hlt]

/-- C4 (the code departs from the claim). A region of one 4-byte element,
offset 0, explicit count 2^62: only 4 bytes remain, far fewer than
`count * itemsize = 2^64`, yet the 64-bit product is 0, the size check passes
and the import returns an array of 2^62 elements. -/
theorem MakeArrayFromBuffer_explicit_count_overflow :
    (flatRegion 4096 1 4).Valid ∧
      IsContiguous (flatRegion 4096 1 4).shape (flatRegion 4096 1 4).strides
        (flatRegion 4096 1 4).itemsize = true ∧
      (flatRegion 4096 1 4).nbytes - 0 < 2 ^ 62 * (flatRegion 4096 1 4).itemsize ∧
      wrap64 (2 ^ 62 * (flatRegion 4096 1 4).itemsize) = 0 ∧
      MakeArrayFromBuffer IsContiguous (flatRegion 4096 1 4) .kInt32 (2 ^ 62) 0 ⟨"native", 0⟩
        = .returned (FromData [2 ^ 62] .kInt32 ⟨4096, .noop⟩ none 0 ⟨"native", 0⟩) := by
  refine ⟨by decide, by decide, by decide, by decide, ?_⟩
  decide

/-! ## Buffer import: the array produced -/

/-- C5. Every array the import returns is `FromData` applied to a shape of one
dimension, the requested dtype, the region's own pointer with the no-op release
action, no explicit strides, the given offset and the given device: it has one
dimension (the explicit count when one was given), the default contiguous
strides, byte offset equal to the given offset, and borrows the region. -/
theorem MakeArrayFromBuffer_result (IsC : Shape → Strides → Int → Bool)
    (info : buffer_info) (dtype : Dtype) (count offset : Int) (device : Device)
    (arr : ArrayBody)
    (h : MakeArrayFromBuffer IsC info dtype count offset device = .returned arr) :
    ∃ n : Int, (0 ≤ count → n = count) ∧
      arr = FromData [n] dtype ⟨info.ptr, .noop⟩ none offset device ∧
      arr.shape = [n] ∧
      arr.strides = contiguousStrides (GetItemSize dtype) [n] ∧
      arr.strides = [GetItemSize dtype] ∧
      arr.offset = offset ∧
      arr.data.ptr = info.ptr ∧
      arr.data.deleter = Deleter.noop ∧
      arr.dtype = dtype ∧
      arr.device = device := by
  unfold MakeArrayFromBuffer at h
  simp only [] at h
  split_ifs at h with c1 c2 c3 c4 c5 c6
  · refine ⟨wrap64 (Int.tdiv (wrap64 (wrap64 (info.size * info.itemsize) - offset))
      info.itemsize), fun hc => absurd hc (by omega), ?_⟩
    have harr := Outcome.returned.inj h
    subst harr
    simp [FromData, contiguousStrides]
  · refine ⟨count, fun _ => rfl, ?_⟩
    have harr := Outcome.returned.inj h
    subst harr
    simp [FromData, contiguousStrides]

theorem MakeArrayFromBuffer_result_witness :
    ∃ n : Int, (0 ≤ (3 : Int) → n = 3) ∧
      FromData [3] .kInt32 ⟨4096, .noop⟩ none 4 ⟨"native", 0⟩
        = FromData [n] .kInt32 ⟨(flatRegion 4096 4 4).ptr, .noop⟩ none 4 ⟨"native", 0⟩ ∧
      (FromData [3] .kInt32 ⟨4096, .noop⟩ none 4 ⟨"native", 0⟩).shape = [n] ∧
      (FromData [3] .kInt32 ⟨4096, .noop⟩ none 4 ⟨"native", 0⟩).strides
        = contiguousStrides (GetItemSize .kInt32) [n] ∧
      (FromData [3] .kInt32 ⟨4096, .noop⟩ none 4 ⟨"native", 0⟩).strides = [GetItemSize .kInt32] ∧
      (FromData [3] .kInt32 ⟨4096, .noop⟩ none 4 ⟨"native", 0⟩).offset = 4 ∧
      (FromData [3] .kInt32 ⟨4096, .noop⟩ none 4 ⟨"native", 0⟩).data.ptr
        = (flatRegion 4096 4 4).ptr ∧
      (FromData [3] .kInt32 ⟨4096, .noop⟩ none 4 ⟨"native", 0⟩).data.deleter = Deleter.noop ∧
      (FromData [3] .kInt32 ⟨4096, .noop⟩ none 4 ⟨"native", 0⟩).dtype = .kInt32 ∧
      (FromData [3] .kInt32 ⟨4096, .noop⟩ none 4 ⟨"native", 0⟩).device = ⟨"native", 0⟩ :=
  MakeArrayFromBuffer_result IsContiguous (flatRegion 4096 4 4) .kInt32 3 4 ⟨"native", 0⟩
    (FromData [3] .kInt32 ⟨4096, .noop⟩ none 4 ⟨"native", 0⟩) (by decide)

/-! ## Buffer import: round trip -/

/-- C6. For every valid contiguous region, of `N = info.size` elements of any
item size of at least one byte: the import with count -1 and offset 0 returns
an array of the single dimension `N`, and so does `frombuffer` called with
count and offset left to their defaults. -/
theorem MakeArrayFromBuffer_round_trip (IsC : Shape → Strides → Int → Bool)
    (info : buffer_info) (dtype : Dtype) (device : Device)
    (hv : info.Valid) (hc : IsC info.shape info.strides info.itemsize = true) :
    MakeArrayFromBuffer IsC info dtype (-1) 0 device
        = .returned (FromData [info.size] dtype ⟨info.ptr, .noop⟩ none 0 device) ∧
      frombuffer IsC info dtype none none device
        = .returned (FromData [info.size] dtype ⟨info.ptr, .noop⟩ none 0 device) ∧
      (FromData [info.size] dtype ⟨info.ptr, .noop⟩ none 0 device).shape = [info.size] := by
  have key : MakeArrayFromBuffer IsC info dtype (-1) 0 device
      = .returned (FromData [info.size] dtype ⟨info.ptr, .noop⟩ none 0 device) := by
    rw [MakeArrayFromBuffer_in_range IsC info dtype (-1) 0 device hv (le_refl 0)
      (nbytes_nonneg hv)]
    have hi : info.itemsize ≠ 0 := by have := hv.2.1; omega
    have hm : (info.nbytes - 0) % info.itemsize = 0 := by
      simp [buffer_info.nbytes]
    have hd : (info.nbytes - 0) / info.itemsize = info.size := by
      simp [buffer_info.nbytes, hi]
    simp only [hc, hm, hd]
    simp
  exact ⟨key, key, rfl⟩

theorem MakeArrayFromBuffer_round_trip_witness :
    (flatRegion 4096 5 8).Valid ∧ IsContiguous [5] [8] 8 = true ∧
      MakeArrayFromBuffer IsContiguous (flatRegion 4096 5 8) .kFloat64 (-1) 0 ⟨"native", 0⟩
        = .returned (FromData [5] .kFloat64 ⟨4096, .noop⟩ none 0 ⟨"native", 0⟩) :=
  ⟨by decide, by decide,
    (MakeArrayFromBuffer_round_trip IsContiguous (flatRegion 4096 5 8) .kFloat64 ⟨"native", 0⟩
      (by decide) (by decide)).1⟩

/-! ## Buffer import: the in-bounds invariant -/

/-- When the requested dtype has the region's own item size and the product
`count * itemsize` is representable, a returned array lies inside the region. -/
theorem MakeArrayFromBuffer_in_bounds_same_itemsize (IsC : Shape → Strides → Int → Bool)
    (info : buffer_info) (dtype : Dtype) (count offset : Int) (device : Device)
    (arr : ArrayBody) (hv : info.Valid) (hsame : GetItemSize dtype = info.itemsize)
    (hprod : 0 ≤ count → InInt64 (count * info.itemsize))
    (h : MakeArrayFromBuffer IsC info dtype count offset device = .returned arr) :
    ∃ n : Int, arr.shape = [n] ∧ arr.offset + n * GetItemSize dtype ≤ info.nbytes := by
  have hw := nbytes_wrap hv
  by_cases hr : offset < 0 ∨ offset > info.nbytes
  · exfalso
    unfold MakeArrayFromBuffer at h
    simp only [hw] at h
    rw [if_pos hr] at h
    cases h
  · have h0 : 0 ≤ offset := by omega
    have h1 : offset ≤ info.nbytes := by omega
    rw [MakeArrayFromBuffer_in_range IsC info dtype count offset device hv h0 h1] at h
    have hi : 0 < info.itemsize := by have := hv.2.1; omega
    split_ifs at h with c1 c2 c3 c4
    · have harr := Outcome.returned.inj h
      subst harr
      refine ⟨_, rfl, ?_⟩
      have hm : (info.nbytes - offset) % info.itemsize = 0 := by
        by_contra hne
        exact c3 hne
      have hd := Int.ediv_add_emod (info.nbytes - offset) info.itemsize
      rw [hm, add_zero] at hd
      simp only [FromData, hsame]
      rw [mul_comm, hd]
      omega
    · have harr := Outcome.returned.inj h
      subst harr
      refine ⟨_, rfl, ?_⟩
      rw [wrap64_of_inInt64 (hprod (by omega))] at c4
      simp only [FromData, hsame]
      omega

/-- C7 (the code departs from the claim). A region of 4 bytes declared with
item size 1, imported as `float32` with the count inferred and offset 0: the
count is derived from the region's item size, so the import returns an array
of 4 elements of 4 bytes each, which spans 16 bytes of a 4-byte region. -/
theorem MakeArrayFromBuffer_out_of_bounds :
    (flatRegion 4096 4 1).Valid ∧
      IsContiguous (flatRegion 4096 4 1).shape (flatRegion 4096 4 1).strides
        (flatRegion 4096 4 1).itemsize = true ∧
      MakeArrayFromBuffer IsContiguous (flatRegion 4096 4 1) .kFloat32 (-1) 0 ⟨"native", 0⟩
        = .returned (FromData [4] .kFloat32 ⟨4096, .noop⟩ none 0 ⟨"native", 0⟩) ∧
      ¬ ((FromData [4] .kFloat32 ⟨4096, .noop⟩ none 0 ⟨"native", 0⟩).offset
          + 4 * GetItemSize .kFloat32 ≤ (flatRegion 4096 4 1).nbytes) := by
  refine ⟨by decide, by decide, by decide, by decide⟩

/-! ## Buffer import: error kinds -/

/-- C8, as the claim states it, fails: an out-of-range offset and a
non-contiguous region are both reported as `ChainerxError`, the same kind. -/
theorem MakeArrayFromBuffer_error_kinds_coincide :
    MakeArrayFromBuffer IsContiguous (flatRegion 4096 4 4) .kFloat32 (-1) 17 ⟨"native", 0⟩
        = .thrown (.ChainerxError (offsetMessage 16)) ∧
      MakeArrayFromBuffer IsContiguous ⟨4096, 4, 4, [4], [8]⟩ .kFloat32 (-1) 0 ⟨"native", 0⟩
        = .thrown (.ChainerxError "ndarray is not C-contiguous") ∧
      ¬ ((Error.ChainerxError (offsetMessage 16)).kind
          ≠ (Error.ChainerxError "ndarray is not C-contiguous").kind) := by
  refine ⟨by decide, by decide, by decide⟩

/-- C8, amended. Every exception thrown by the buffer import has the one kind
`ChainerxError`, and carries one of four messages; the messages of the two
out-of-range failures differ from the messages of the two layout failures, so
the two groups are told apart by message text and not by kind. -/
theorem MakeArrayFromBuffer_error_kind (IsC : Shape → Strides → Int → Bool)
    (info : buffer_info) (dtype : Dtype) (count offset : Int) (device : Device)
    (e : Error) (h : MakeArrayFromBuffer IsC info dtype count offset device = .thrown e) :
    e.kind = ErrorKind.ChainerxError ∧
      (e.what = offsetMessage (wrap64 (info.size * info.itemsize)) ∨
        e.what = "buffer is smaller than requested size" ∨
        e.what = "ndarray is not C-contiguous" ∨
        e.what = "buffer size must be a multiple of element size") ∧
      (∀ n : Int, offsetMessage n ≠ "ndarray is not C-contiguous" ∧
        offsetMessage n ≠ "buffer size must be a multiple of element size") ∧
      "buffer is smaller than requested size" ≠ "ndarray is not C-contiguous" ∧
      "buffer is smaller than requested size"
        ≠ "buffer size must be a multiple of element size" := by
  refine ⟨?_, ?_, fun n => ⟨offsetMessage_ne_contiguous n, offsetMessage_ne_multiple n⟩,
    by decide, by decide⟩
  all_goals
    unfold MakeArrayFromBuffer at h
    simp only [] at h
    split_ifs at h <;>
      first
        | (have he := Outcome.thrown.inj h
           subst he
           simp [Error.kind, Error.what, offsetMessage])

theorem MakeArrayFromBuffer_error_kind_witness :
    MakeArrayFromBuffer IsContiguous (flatRegion 4096 4 4) .kFloat32 (-1) 6 ⟨"native", 0⟩
        = .thrown (.ChainerxError "buffer size must be a multiple of element size") ∧
      (Error.ChainerxError "buffer size must be a multiple of element size").kind
        = ErrorKind.ChainerxError :=
  ⟨by decide,
    (MakeArrayFromBuffer_error_kind IsContiguous (flatRegion 4096 4 4) .kFloat32 (-1) 6
      ⟨"native", 0⟩ (.ChainerxError "buffer size must be a multiple of element size")
      (by decide)).1⟩

/-! ## Chained calls -/

theorem Outcome.bind_eq_returned {α β : Type} {o : Outcome α} {f : α → Outcome β} {b : β} :
    o.bind f = .returned b ↔ ∃ a, o = .returned a ∧ f a = .returned b := by
  cases o <;> simp [Outcome.bind]

/-! ## `take` with `axis=None` -/

/-- C9. For every array, every indices object of whatever type, and whatever
the type tests and converters do: `take` with no axis throws
`NotImplementedError`, so the result does not depend on the indices and no call
of `Take` is reached. -/
theorem take_axis_none {PyObject : Type}
    (isArrayBody isSequence isNumpyArray : PyObject → Bool)
    (castArrayBody : PyObject → ArrayBody)
    (MakeArray : PyObject → Option Dtype → Bool → Device → Outcome ArrayBody)
    (MakeArrayFromNumpyArray : PyObject → Device → Outcome ArrayBody)
    (a : ArrayBody) (indices : PyObject) :
    take isArrayBody isSequence isNumpyArray castArrayBody MakeArray MakeArrayFromNumpyArray
        a indices none
      = .thrown (.NotImplementedError "axis=None is not yet supported for chainerx.take.") ∧
    (take isArrayBody isSequence isNumpyArray castArrayBody MakeArray MakeArrayFromNumpyArray
        a indices none).fails = true ∧
    ∀ args : TakeArgs,
      take isArrayBody isSequence isNumpyArray castArrayBody MakeArray MakeArrayFromNumpyArray
        a indices none ≠ .returned args := by
  refine ⟨rfl, rfl, ?_⟩
  intro args h
  simp [take] at h

/-! ## `average_pool` and its `pad_mode` -/

/-- C10. For all enumerator values, converters and arguments of `average_pool`:
with `pad_mode` equal to "zero" a dispatched call of `AveragePool` carries
`kZero`, with "ignore" it carries `kIgnore`, and the call is dispatched whenever
the three conversions of `ksize`, `stride` and `pad` return; every other string
(such as "Zero" or "IGNORE") throws `value_error` whatever the converters do,
so no call is dispatched; and the mode of a dispatched call is one of the two
enumerators, hence not the value-initialised one when neither enumerator is. -/
theorem average_pool_pad_mode {PyObject : Type}
    (kZero kIgnore : AveragePoolPadMode)
    (ToStackVector : PyObject → Int → Outcome (List Int))
    (is_none : PyObject → Bool)
    (x : ArrayBody) (ksize stride pad : PyObject) :
    (∀ args, average_pool kZero kIgnore ToStackVector is_none x ksize stride pad "zero"
        = .returned args → args.pad_mode = kZero) ∧
    (∀ args, average_pool kZero kIgnore ToStackVector is_none x ksize stride pad "ignore"
        = .returned args → args.pad_mode = kIgnore) ∧
    (∀ k s p, ToStackVector ksize (x.ndim - 2) = .returned k →
        ToStackVector (if is_none stride then ksize else stride) (x.ndim - 2) = .returned s →
        ToStackVector pad (x.ndim - 2) = .returned p →
        average_pool kZero kIgnore ToStackVector is_none x ksize stride pad "zero"
            = .returned ⟨x, k, s, p, kZero⟩ ∧
          average_pool kZero kIgnore ToStackVector is_none x ksize stride pad "ignore"
            = .returned ⟨x, k, s, p, kIgnore⟩) ∧
    (∀ pad_mode : String, pad_mode ≠ "zero" → pad_mode ≠ "ignore" →
        average_pool kZero kIgnore ToStackVector is_none x ksize stride pad pad_mode
          = .thrown (.value_error "pad_mode must be either of 'zero' or 'ignore'")) ∧
    average_pool kZero kIgnore ToStackVector is_none x ksize stride pad "Zero"
        = .thrown (.value_error "pad_mode must be either of 'zero' or 'ignore'") ∧
    average_pool kZero kIgnore ToStackVector is_none x ksize stride pad "IGNORE"
        = .thrown (.value_error "pad_mode must be either of 'zero' or 'ignore'") ∧
    (∀ (pad_mode : String) args,
        average_pool kZero kIgnore ToStackVector is_none x ksize stride pad pad_mode
          = .returned args →
        ((pad_mode = "zero" ∧ args.pad_mode = kZero) ∨
          (pad_mode = "ignore" ∧ args.pad_mode = kIgnore)) ∧
        (kZero ≠ AveragePoolPadMode.valueInitialized →
          kIgnore ≠ AveragePoolPadMode.valueInitialized →
          args.pad_mode ≠ AveragePoolPadMode.valueInitialized)) := by
  have hret : ∀ (m : AveragePoolPadMode) args,
      (Outcome.returned m).bind (fun mode =>
        (ToStackVector ksize (x.ndim - 2)).bind fun ksize_v =>
          (if is_none stride = true then ToStackVector ksize (x.ndim - 2)
            else ToStackVector stride (x.ndim - 2)).bind fun stride_v =>
              (ToStackVector pad (x.ndim - 2)).bind fun pad_v =>
                Outcome.returned (AveragePoolArgs.mk x ksize_v stride_v pad_v mode))
        = .returned args → args.pad_mode = m := by
    intro m args h
    obtain ⟨m1, hm1, h⟩ := Outcome.bind_eq_returned.1 h
    obtain ⟨k, _, h⟩ := Outcome.bind_eq_returned.1 h
    obtain ⟨s, _, h⟩ := Outcome.bind_eq_returned.1 h
    obtain ⟨p, _, h⟩ := Outcome.bind_eq_returned.1 h
    have h2 := Outcome.returned.inj h
    have h3 := Outcome.returned.inj hm1
    rw [← h2, h3]
  have hthrow : ∀ pad_mode : String, pad_mode ≠ "zero" → pad_mode ≠ "ignore" →
      average_pool kZero kIgnore ToStackVector is_none x ksize stride pad pad_mode
        = .thrown (.value_error "pad_mode must be either of 'zero' or 'ignore'") := by
    intro pad_mode h1 h2
    simp [average_pool, h1, h2, Outcome.bind]
  refine ⟨?_, ?_, ?_, hthrow, hthrow _ (by decide) (by decide),
    hthrow _ (by decide) (by decide), ?_⟩
  · intro args h
    exact hret kZero args (by simpa [average_pool] using h)
  · intro args h
    exact hret kIgnore args (by simpa [average_pool] using h)
  · intro k s p hk hs hp
    cases hn : is_none stride
    · simp only [hn, Bool.false_eq_true, if_false] at hs
      constructor <;> simp [average_pool, Outcome.bind, hk, hs, hp, hn]
    · simp only [hn, if_true] at hs
      have hks : k = s := Outcome.returned.inj (hk.symm.trans hs)
      subst hks
      constructor <;> simp [average_pool, Outcome.bind, hk, hp, hn]
  · intro pad_mode args h
    by_cases h1 : pad_mode = "zero"
    · subst h1
      have hm := hret kZero args (by simpa [average_pool] using h)
      exact ⟨Or.inl ⟨rfl, hm⟩, fun hz _ => hm ▸ hz⟩
    · by_cases h2 : pad_mode = "ignore"
      · subst h2
        have hm := hret kIgnore args (by simpa [average_pool] using h)
        exact ⟨Or.inr ⟨rfl, hm⟩, fun _ hi => hm ▸ hi⟩
      · rw [hthrow pad_mode h1 h2] at h
        cases h

theorem average_pool_pad_mode_witness :
    exampleToStackVector (some 2) (exampleImages.ndim - 2) = .returned [2, 2] ∧
      exampleToStackVector (some 0) (exampleImages.ndim - 2) = .returned [0, 0] ∧
      average_pool ⟨1⟩ ⟨2⟩ exampleToStackVector Option.isNone exampleImages
          (some 2) none (some 0) "zero"
        = .returned ⟨exampleImages, [2, 2], [2, 2], [0, 0], ⟨1⟩⟩ :=
  ⟨by decide, by decide,
    ((average_pool_pad_mode ⟨1⟩ ⟨2⟩ exampleToStackVector Option.isNone exampleImages
      (some 2) none (some 0)).2.2.1 [2, 2] [2, 2] [0, 0] (by decide) (by decide) (by decide)).1⟩

/-! ## Number of spatial axes in the convolution and pooling bindings -/

theorem broadcastDim_comm (x y : Int) : broadcastDim x y = broadcastDim y x := by
  have hc : dimsCompatible x y = dimsCompatible y x := by
    unfold dimsCompatible
    rw [Bool.eq_iff_iff]
    simp only [Bool.or_eq_true, beq_iff_eq]
    constructor
    · rintro ((h | h) | h)
      · exact Or.inl (Or.inl h.symm)
      · exact Or.inr h
      · exact Or.inl (Or.inr h)
    · rintro ((h | h) | h)
      · exact Or.inl (Or.inl h.symm)
      · exact Or.inr h
      · exact Or.inl (Or.inr h)
  unfold broadcastDim
  rw [hc, max_comm]

theorem broadcastDim_of_compatible {x y : Int} (h : dimsCompatible x y = true) :
    broadcastDim x y = .ok (max x y) := by
  unfold broadcastDim
  rw [if_pos h]

theorem broadcastDim_of_not_compatible {x y : Int} (h : dimsCompatible x y = false) :
    broadcastDim x y = .error .BroadcastError := by
  unfold broadcastDim
  rw [if_neg (by simp [h])]

theorem broadcastAligned_comm (xs ys : List Int) :
    broadcastAligned xs ys = broadcastAligned ys xs := by
  induction xs generalizing ys with
  | nil => cases ys <;> rfl
  | cons x xs ih =>
    cases ys with
    | nil => rfl
    | cons y ys =>
      simp only [broadcastAligned]
      rw [broadcastDim_comm x y, ih ys]

theorem broadcastAligned_of_compatible (xs ys : List Int)
    (h : (List.zip xs ys).all (fun p => dimsCompatible p.1 p.2) = true) :
    ∃ r : List Int, broadcastAligned xs ys = .ok r ∧ r.length = max xs.length ys.length ∧
      ∀ i : Nat, r[i]? = alignedMax xs[i]? ys[i]? := by
  induction xs generalizing ys with
  | nil =>
    refine ⟨ys, by cases ys <;> rfl, by simp, ?_⟩
    intro i
    cases hy : ys[i]? <;> simp [alignedMax, hy]
  | cons x xs ih =>
    cases ys with
    | nil =>
      refine ⟨x :: xs, rfl, by simp, ?_⟩
      intro i
      cases hx : (x :: xs)[i]? <;> simp [alignedMax, hx]
    | cons y ys =>
      simp only [List.zip_cons_cons, List.all_cons, Bool.and_eq_true] at h
      obtain ⟨r, hr, hlen, hpos⟩ := ih ys h.2
      refine ⟨max x y :: r, ?_, ?_, ?_⟩
      · simp only [broadcastAligned, broadcastDim_of_compatible h.1, hr]
      · simp only [List.length_cons, hlen]
        omega
      · intro i
        cases i with
        | zero => simp [alignedMax]
        | succ j => simpa using hpos j

theorem broadcastAligned_of_not_compatible (xs ys : List Int)
    (h : (List.zip xs ys).all (fun p => dimsCompatible p.1 p.2) = false) :
    broadcastAligned xs ys = .error .BroadcastError := by
  induction xs generalizing ys with
  | nil => simp at h
  | cons x xs ih =>
    cases ys with
    | nil => simp at h
    | cons y ys =>
      simp only [List.zip_cons_cons, List.all_cons, Bool.and_eq_false_iff] at h
      simp only [broadcastAligned]
      rcases h with h | h
      · rw [broadcastDim_of_not_compatible h]
      · rw [ih ys h]
        cases broadcastDim x y <;> rfl

/-- C17. For all shapes `s1`, `s2` that are broadcastable (right-aligned, each
dimension pair equal or one of them 1) `BroadcastShapes` succeeds, the result
is as long as the longer shape, and it has at each right-aligned position the
max of the two input dimensions (where only one shape has a dimension, that
dimension); `BroadcastShapes(s1, s2) = BroadcastShapes(s2, s1)` for all
shapes; and for non-broadcastable shapes it fails with `BroadcastError`. -/
theorem BroadcastShapes_max (a b : Shape) :
    (Broadcastable a b = true →
      ∃ r : Shape, BroadcastShapes a b = .ok r ∧
        r.length = max a.length b.length ∧
        (∀ (i : Nat) (x y : Int), dimFromRight a i = some x → dimFromRight b i = some y →
          dimFromRight r i = some (max x y)) ∧
        (∀ i : Nat, dimFromRight r i = alignedMax (dimFromRight a i) (dimFromRight b i))) ∧
    BroadcastShapes a b = BroadcastShapes b a ∧
    (Broadcastable a b = false → BroadcastShapes a b = .error .BroadcastError) := by
  refine ⟨?_, ?_, ?_⟩
  · intro h
    unfold Broadcastable at h
    obtain ⟨r, hr, hlen, hpos⟩ := broadcastAligned_of_compatible a.reverse b.reverse h
    refine ⟨r.reverse, ?_, ?_, ?_, ?_⟩
    · simp only [BroadcastShapes, hr]
    · simpa using hlen
    · intro i x y hx hy
      unfold dimFromRight at hx hy
      have := hpos i
      rw [hx, hy] at this
      simp only [dimFromRight, List.reverse_reverse, this, alignedMax]
    · intro i
      simpa [dimFromRight] using hpos i
  · simp only [BroadcastShapes, broadcastAligned_comm a.reverse b.reverse]
  · intro h
    unfold Broadcastable at h
    simp only [BroadcastShapes, broadcastAligned_of_not_compatible a.reverse b.reverse h]

theorem BroadcastShapes_max_witness :
    Broadcastable [8, 1, 6, 1] [7, 1, 5] = true ∧
      Broadcastable [2, 3] [4, 3] = false ∧
      BroadcastShapes [2, 3] [4, 3] = .error .BroadcastError ∧
      ∃ r : Shape, BroadcastShapes [8, 1, 6, 1] [7, 1, 5] = .ok r ∧
        r.length = max [8, 1, 6, 1].length [7, 1, 5].length ∧
        dimFromRight r 0 = some (max 1 5) ∧ dimFromRight r 2 = some (max 1 7) :=
  ⟨by decide, by decide, (BroadcastShapes_max [2, 3] [4, 3]).2.2 (by decide),
    match (BroadcastShapes_max [8, 1, 6, 1] [7, 1, 5]).1 (by decide) with
    | ⟨r, h1, h2, h3, _⟩ => ⟨r, h1, h2, h3 0 1 5 rfl rfl, h3 2 1 7 rfl rfl⟩⟩

/-! ## `ResolveAxis` -/

/-- C18. For every rank and every axis with `0 ≤ axis < rank`, `ResolveAxis`
succeeds on `axis` and on its negative form `axis - rank` and returns the same
index, `axis`, which lies in `[0, rank)`; for every axis with `axis < -rank` or
`axis ≥ rank` it fails with `InvalidAxisError`. -/
theorem ResolveAxis_negative_form (rank axis : Int) :
    (0 ≤ axis → axis < rank →
      ResolveAxis rank axis = .ok axis ∧
      ResolveAxis rank (axis - rank) = .ok axis ∧
      ResolveAxis rank axis = ResolveAxis rank (axis - rank) ∧
      0 ≤ axis ∧ axis < rank) ∧
    (axis < -rank ∨ axis ≥ rank → ResolveAxis rank axis = .error .InvalidAxisError) := by
  constructor
  · intro h0 h1
    have e1 : ResolveAxis rank axis = .ok axis := by
      unfold ResolveAxis
      rw [if_neg (by omega), if_neg (by omega)]
    have e2 : ResolveAxis rank (axis - rank) = .ok axis := by
      unfold ResolveAxis
      rw [if_neg (by omega), if_pos (by omega)]
      congr 1
      omega
    exact ⟨e1, e2, e1.trans e2.symm, h0, h1⟩
  · intro h
    unfold ResolveAxis
    rw [if_pos h]

theorem ResolveAxis_negative_form_witness :
    (0 : Int) ≤ 1 ∧ (1 : Int) < 3 ∧ ResolveAxis 3 1 = .ok 1 ∧ ResolveAxis 3 (1 - 3) = .ok 1 :=
  ⟨by decide, by decide,
    ((ResolveAxis_negative_form 3 1).1 (by decide) (by decide)).1,
    ((ResolveAxis_negative_form 3 1).1 (by decide) (by decide)).2.1⟩

/-! ## `arange` -/

/-- C19. For all arguments of `arange`: with `stop` omitted the call has the
single value as `stop` and 0 of that value's kind as `start`; with `stop` given
the first value is `start` and the second `stop`; a given `step` is passed on
and an omitted one is 1 of the first value's kind; the overload of `Arange`
without a dtype is called exactly when `dtype` is `None`, and otherwise the
overload with the given dtype. So `arange(0, 10, 2, dtype=int32)` calls
`Arange(0, 10, 2, int32, device)`. -/
theorem arange_normalisation (v : Scalar) (maybe_stop maybe_step : Option Scalar)
    (dtype : Option Dtype) (device : Device) :
    (∃ call, arange v maybe_stop maybe_step dtype device = .returned call ∧
      (maybe_stop = none → call.start = ⟨v.kind, 0⟩ ∧ call.stop = v) ∧
      (∀ s, maybe_stop = some s → call.start = v ∧ call.stop = s) ∧
      (maybe_step = none → call.step = ⟨v.kind, 1⟩) ∧
      (∀ s, maybe_step = some s → call.step = s) ∧
      (call.dtype = dtype) ∧
      (dtype = none ↔ ∃ a b c, call = .Arange a b c device) ∧
      (∀ d, dtype = some d ↔ ∃ a b c, call = .ArangeDtype a b c d device)) ∧
    arange ⟨.kInt, 0⟩ (some ⟨.kInt, 10⟩) (some ⟨.kInt, 2⟩) (some .kInt32) device
      = .returned (.ArangeDtype ⟨.kInt, 0⟩ ⟨.kInt, 10⟩ ⟨.kInt, 2⟩ .kInt32 device) := by
  refine ⟨?_, rfl⟩
  cases maybe_stop <;> cases maybe_step <;> cases dtype <;>
    simp [arange, ArangeCall.start, ArangeCall.stop, ArangeCall.step, ArangeCall.dtype]

theorem arange_normalisation_witness :
    ∃ call, arange ⟨.kFloat, 5⟩ none none none ⟨"native", 0⟩ = .returned call ∧
      call.start = ⟨.kFloat, 0⟩ ∧ call.stop = ⟨.kFloat, 5⟩ ∧ call.step = ⟨.kFloat, 1⟩ := by
  obtain ⟨call, h, h1, _, h3, _⟩ :=
    (arange_normalisation ⟨.kFloat, 5⟩ none none none ⟨"native", 0⟩).1
  exact ⟨call, h, (h1 rfl).1, (h1 rfl).2, h3 rfl⟩

/-! ## `split` with a float section count -/

theorem roundToSignificand_exact (m k : Nat) (hm : m < 2 ^ 53) :
    roundToSignificand (m * 2 ^ k) = m * 2 ^ k := by
  unfold roundToSignificand
  by_cases hlt : m * 2 ^ k < 2 ^ 53
  · rw [if_pos hlt]
  · rw [if_neg hlt]
    have hne : m * 2 ^ k ≠ 0 := by
      intro h0
      rw [h0] at hlt
      exact hlt (Nat.pow_pos (by decide))
    have hbound : m * 2 ^ k < 2 ^ (53 + k) := by
      rw [Nat.pow_add]
      exact Nat.mul_lt_mul_of_pos_right hm (Nat.pow_pos (by decide))
    have hlog : Nat.log2 (m * 2 ^ k) < 53 + k := (Nat.log2_lt hne).2 hbound
    have hle : Nat.log2 (m * 2 ^ k) - 52 ≤ k := by omega
    have hdvd : 2 ^ (Nat.log2 (m * 2 ^ k) - 52) ∣ m * 2 ^ k :=
      Dvd.dvd.mul_left (Nat.pow_dvd_pow 2 hle) m
    have hr : m * 2 ^ k % 2 ^ (Nat.log2 (m * 2 ^ k) - 52) = 0 := Nat.mod_eq_zero_of_dvd hdvd
    have hhalf : 0 < 2 ^ (Nat.log2 (m * 2 ^ k) - 52 - 1) := Nat.pow_pos (by decide)
    simp only [hr, hhalf, if_true]
    exact Nat.div_mul_cancel hdvd


theorem static_cast_double_exact (n : Int) (m k : Nat) (hm : m < 2 ^ 53)
    (hn : n.natAbs = m * 2 ^ k) : static_cast_double n = .finite n 0 := by
  unfold static_cast_double
  rw [hn, roundToSignificand_exact m k hm, ← hn]
  congr 1
  by_cases h : n < 0
  · rw [if_pos h]
    omega
  · rw [if_neg h]
    omega

theorem double_eq_int_iff (m e n : Int) :
    (double.finite m e).eq (.finite n 0) = true ↔
      (0 ≤ e ∧ m * 2 ^ e.toNat = n) ∨ (e < 0 ∧ m = n * 2 ^ (-e).toNat) := by
  unfold double.eq
  simp only [beq_iff_eq]
  by_cases he : 0 ≤ e
  · have h1 : min e 0 = 0 := by omega
    rw [h1]
    simp only [sub_zero, Int.toNat_zero, pow_zero, mul_one]
    constructor
    · intro h
      exact Or.inl ⟨he, h⟩
    · rintro (⟨_, h⟩ | ⟨h, _⟩)
      · exact h
      · omega
  · have h1 : min e 0 = e := by omega
    rw [h1]
    simp only [sub_self, Int.toNat_zero, pow_zero, mul_one, zero_sub]
    constructor
    · intro h
      exact Or.inr ⟨by omega, h⟩
    · rintro (⟨h, _⟩ | ⟨_, h⟩)
      · omega
      · exact h

theorem double_int_eq_comm (m e n : Int) :
    (double.finite n 0).eq (.finite m e) = (double.finite m e).eq (.finite n 0) := by
  simp only [double.eq, min_comm 0 e]
  rw [Bool.eq_iff_iff]
  simp only [beq_iff_eq]
  exact eq_comm

theorem pyfloat_of_integer {PyObject : Type} (api : PyApi PyObject) (num : PyObject)
    (m e n : Int) (hcast : api.cast_double num = .returned (.finite m e))
    (hv : (double.finite m e).IsBinary64) (hn : InInt64 n)
    (heq : (double.finite m e).eq (.finite n 0) = true) :
    pyfloat_to_sections_or_value_error api num = .returned n := by
  obtain ⟨hm, _, _⟩ := hv
  have htrunc : (double.finite m e).truncate = some n := by
    simp only [double.truncate]
    rcases (double_eq_int_iff m e n).1 heq with ⟨he, h⟩ | ⟨he, h⟩
    · rw [if_pos he, h]
    · have hneg : ¬ 0 ≤ e := by omega
      rw [if_neg hneg, h, Int.mul_tdiv_cancel]
      exact pow_ne_zero _ (by decide)
  have hexact : static_cast_double n = .finite n 0 := by
    rcases (double_eq_int_iff m e n).1 heq with ⟨he, h⟩ | ⟨he, h⟩
    · refine static_cast_double_exact n m.natAbs e.toNat hm ?_
      rw [← h, Int.natAbs_mul, Int.natAbs_pow]
      rfl
    · refine static_cast_double_exact n n.natAbs 0 ?_ (by simp)
      have h2 : m.natAbs = n.natAbs * 2 ^ (-e).toNat := by
        rw [h, Int.natAbs_mul, Int.natAbs_pow]
        rfl
      have h3 : n.natAbs ≤ n.natAbs * 2 ^ (-e).toNat :=
        Nat.le_mul_of_pos_right _ (Nat.pow_pos (by decide))
      omega
  unfold pyfloat_to_sections_or_value_error
  simp only [hcast, Outcome.bind, static_cast_int64, htrunc, if_pos hn, hexact,
    double_int_eq_comm, heq]
  rfl

theorem pyfloat_of_fraction {PyObject : Type} (api : PyApi PyObject) (num : PyObject)
    (v : double) (hcast : api.cast_double num = .returned v)
    (hv : v.IsBinary64) (hf : v.HasFraction) :
    pyfloat_to_sections_or_value_error api num
      = .thrown (.value_error "Sections must be an integer.") := by
  cases v with
  | infinity s => exact absurd hf (by simp [double.HasFraction])
  | nan => exact absurd hf (by simp [double.HasFraction])
  | finite m e =>
    obtain ⟨hm, _, _⟩ := hv
    obtain ⟨he, hmod⟩ := hf
    have htrunc : (double.finite m e).truncate = some (Int.tdiv m (2 ^ (-e).toNat)) := by
      have hneg : ¬ 0 ≤ e := by omega
      simp only [double.truncate, if_neg hneg]
    have hrange : InInt64 (Int.tdiv m (2 ^ (-e).toNat)) := by
      have h1 : (Int.tdiv m (2 ^ (-e).toNat)).natAbs ≤ m.natAbs := by
        rw [Int.natAbs_tdiv]
        exact Nat.div_le_self _ _
      unfold InInt64
      omega
    have hne : ∀ k : Int, (double.finite k 0).eq (.finite m e) = false := by
      intro k
      rw [double_int_eq_comm]
      cases hq : (double.finite m e).eq (.finite k 0)
      · rfl
      · exfalso
        rcases (double_eq_int_iff m e k).1 hq with ⟨h, _⟩ | ⟨_, h⟩
        · omega
        · apply hmod
          rw [h]
          exact Int.mul_emod_left _ _
    unfold pyfloat_to_sections_or_value_error
    simp only [hcast, Outcome.bind, static_cast_int64, htrunc, if_pos hrange]
    unfold static_cast_double
    rw [hne]
    rfl

/-- C20, as the claim states it, fails: the float 2^63 equals the integer 2^63
exactly, but no 64-bit section count has that value; the conversion to
`int64_t` has no defined behaviour there and `Split` is not called with 2^63
sections. -/
theorem split_float_out_of_range :
    (double.finite 1 63).IsBinary64 ∧
      (double.finite 1 63).eq (.finite (2 ^ 63) 0) = true ∧
      ¬ InInt64 (2 ^ 63) ∧
      split exampleApi exampleImages (.float (.finite 1 63)) 0 = .trapped ∧
      split exampleApi exampleImages (.float (.finite 1 63)) 0
        ≠ .returned (.sections exampleImages (2 ^ 63) 0) := by
  refine ⟨⟨by decide, by decide, by decide⟩, by decide, by decide, by decide, by decide⟩

/-- C20, amended. For every object that is a Python float and not an integer,
with a finite value `v` of the 64-bit binary format: when `v` equals an integer
`n` that fits `int64_t` exactly, `split` ends in the call of `Split` with `n`
sections; when `v` has a non-zero fractional part, `split` throws `value_error`
with the text "Sections must be an integer." and calls nothing. Whole-number
floats outside the range of `int64_t`, infinities and NaN are left out. -/
theorem split_float_sections {PyObject : Type} (api : PyApi PyObject) (ary : ArrayBody)
    (indices_or_sections : PyObject) (axis : Int) (v : double)
    (hint : api.isinstance_int indices_or_sections = false)
    (hfloat : api.isinstance_float indices_or_sections = true)
    (hcast : api.cast_double indices_or_sections = .returned v) (hv : v.IsBinary64) :
    (∀ n : Int, InInt64 n → v.eq (.finite n 0) = true →
      split api ary indices_or_sections axis = .returned (.sections ary n axis)) ∧
    (v.HasFraction →
      split api ary indices_or_sections axis
        = .thrown (.value_error "Sections must be an integer.")) := by
  constructor
  · intro n hn heq
    cases v with
    | infinity s => simp [double.eq] at heq
    | nan => simp [double.eq] at heq
    | finite m e =>
      have hp := pyfloat_of_integer api indices_or_sections m e n hcast hv hn heq
      simp [split, hint, hfloat, hp, Outcome.bind, split_sections]
  · intro hf
    have hp := pyfloat_of_fraction api indices_or_sections v hcast hv hf
    simp [split, hint, hfloat, hp, Outcome.bind]

theorem split_float_sections_witness :
    (double.finite 3 1).IsBinary64 ∧ InInt64 6 ∧
      (double.finite 3 1).eq (.finite 6 0) = true ∧
      split exampleApi exampleImages (.float (.finite 3 1)) 0
        = .returned (.sections exampleImages 6 0) :=
  ⟨⟨by decide, by decide, by decide⟩, by decide, by decide,
    (split_float_sections exampleApi exampleImages (.float (.finite 3 1)) 0 (.finite 3 1)
      rfl rfl rfl ⟨by decide, by decide, by decide⟩).1 6 (by decide) (by decide)⟩

/-! ## Buffer import: offset alignment with an inferred count -/

/-- C22. For every valid contiguous region (item size at least 1), every
offset from 0 to the byte length and the count unspecified (negative): the
buffer import returns an array if and only if the offset is a multiple of the
item size; and with the offset equal to the byte length it returns an array of
length 0. -/
theorem MakeArrayFromBuffer_offset_alignment (IsC : Shape → Strides → Int → Bool)
    (info : buffer_info) (dtype : Dtype) (count offset : Int) (device : Device)
    (hv : info.Valid) (hc : IsC info.shape info.strides info.itemsize = true)
    (h0 : 0 ≤ offset) (h1 : offset ≤ info.nbytes) (hcount : count < 0) :
    ((∃ arr, MakeArrayFromBuffer IsC info dtype count offset device = .returned arr) ↔
        offset % info.itemsize = 0) ∧
      (offset = info.nbytes →
        MakeArrayFromBuffer IsC info dtype count offset device
            = .returned (FromData [0] dtype ⟨info.ptr, .noop⟩ none offset device) ∧
          (FromData [0] dtype ⟨info.ptr, .noop⟩ none offset device).shape = [0]) := by
  have hrem : (info.nbytes - offset) % info.itemsize = 0 ↔ offset % info.itemsize = 0 := by
    have hd : info.itemsize ∣ info.nbytes := Dvd.intro_left info.size rfl
    rw [← Int.dvd_iff_emod_eq_zero, ← Int.dvd_iff_emod_eq_zero]
    constructor
    · intro h
      have := Int.dvd_sub hd h
      simpa using this
    · intro h
      exact Int.dvd_sub hd h
  rw [MakeArrayFromBuffer_in_range IsC info dtype count offset device hv h0 h1]
  simp only [hc, if_pos hcount]
  constructor
  · by_cases hm : (info.nbytes - offset) % info.itemsize = 0
    · simp [hm, hrem.1 hm]
    · have hm2 : ¬ offset % info.itemsize = 0 := fun h => hm (hrem.2 h)
      simp [hm, hm2]
  · intro heq
    subst heq
    simp [FromData]

theorem MakeArrayFromBuffer_offset_alignment_witness :
    (flatRegion 4096 4 4).Valid ∧ IsContiguous [4] [4] 4 = true ∧
      ((∃ arr, MakeArrayFromBuffer IsContiguous (flatRegion 4096 4 4) .kInt32 (-1) 6
          ⟨"native", 0⟩ = .returned arr) ↔ (6 : Int) % (flatRegion 4096 4 4).itemsize = 0) :=
  ⟨by decide, by decide,
    (MakeArrayFromBuffer_offset_alignment IsContiguous (flatRegion 4096 4 4) .kInt32 (-1) 6
      ⟨"native", 0⟩ (by decide) (by decide) (by decide) (by decide) (by decide)).1⟩

/-! ## Buffer import: the count check under 64-bit wraparound -/

/-- C23 (the code departs from the claim). A region of two 8-byte elements,
offset 0, explicit count 2^60, which is representable in 64 bits: the product
`count * itemsize` is 2^63 and wraps to -2^63, the check
`n_bytes < count * itemsize` is false, and the import returns an array of 2^60
elements although `count * itemsize` exceeds the 16 bytes of the region. -/
theorem MakeArrayFromBuffer_count_check_bypassed :
    (flatRegion 4096 2 8).Valid ∧
      IsContiguous (flatRegion 4096 2 8).shape (flatRegion 4096 2 8).strides
        (flatRegion 4096 2 8).itemsize = true ∧
      (0 : Int) ≤ 2 ^ 60 ∧ InInt64 (2 ^ 60) ∧
      wrap64 (2 ^ 60 * (flatRegion 4096 2 8).itemsize) = -(2 ^ 63) ∧
      MakeArrayFromBuffer IsContiguous (flatRegion 4096 2 8) .kInt64 (2 ^ 60) 0 ⟨"native", 0⟩
        = .returned (FromData [2 ^ 60] .kInt64 ⟨4096, .noop⟩ none 0 ⟨"native", 0⟩) ∧
      ¬ (2 ^ 60 * (flatRegion 4096 2 8).itemsize ≤ (flatRegion 4096 2 8).nbytes - 0) := by
  refine ⟨by decide, by decide, by decide, by decide, by decide, by decide, by decide⟩

/-! ## Stride default of the pooling bindings -/

/-- C25. For `max_pool` and `average_pool`, whatever the converter does: when
`stride` is `None`, the stride of a dispatched call is the conversion of
`ksize` to `x.ndim - 2` entries, the same vector as the kernel size of that
call; when `stride` is given, it is the conversion of the given stride to that
length, and two calls that differ only in `ksize` dispatch the same stride. -/
theorem pooling_stride_default {PyObject : Type}
    (T : PyObject → Int → Outcome (List Int)) (is_none : PyObject → Bool)
    (kZero kIgnore : AveragePoolPadMode) (x : ArrayBody) (ksize stride pad : PyObject) :
    (is_none stride = true →
      (∀ cover_all args, max_pool T is_none x ksize stride pad cover_all = .returned args →
        T ksize (x.ndim - 2) = .returned args.stride ∧ args.stride = args.kernel_size) ∧
      (∀ pad_mode args,
        average_pool kZero kIgnore T is_none x ksize stride pad pad_mode = .returned args →
        T ksize (x.ndim - 2) = .returned args.stride ∧ args.stride = args.kernel_size)) ∧
    (is_none stride = false →
      (∀ cover_all args, max_pool T is_none x ksize stride pad cover_all = .returned args →
        T stride (x.ndim - 2) = .returned args.stride) ∧
      (∀ pad_mode args,
        average_pool kZero kIgnore T is_none x ksize stride pad pad_mode = .returned args →
        T stride (x.ndim - 2) = .returned args.stride) ∧
      (∀ ksize2 cover_all args args2,
        max_pool T is_none x ksize stride pad cover_all = .returned args →
        max_pool T is_none x ksize2 stride pad cover_all = .returned args2 →
        args2.stride = args.stride) ∧
      (∀ ksize2 pad_mode args args2,
        average_pool kZero kIgnore T is_none x ksize stride pad pad_mode = .returned args →
        average_pool kZero kIgnore T is_none x ksize2 stride pad pad_mode = .returned args2 →
        args2.stride = args.stride)) := by
  have hmax : ∀ (ks : PyObject) cover_all args,
      max_pool T is_none x ks stride pad cover_all = .returned args →
        T ks (x.ndim - 2) = .returned args.kernel_size ∧
        (if is_none stride = true then T ks (x.ndim - 2) else T stride (x.ndim - 2))
          = .returned args.stride := by
    intro ks cover_all args h
    obtain ⟨k, hk, h⟩ := Outcome.bind_eq_returned.1 h
    obtain ⟨s, hs, h⟩ := Outcome.bind_eq_returned.1 h
    obtain ⟨p, _, h⟩ := Outcome.bind_eq_returned.1 h
    have ha := Outcome.returned.inj h
    subst ha
    exact ⟨hk, hs⟩
  have havg : ∀ (ks : PyObject) pad_mode args,
      average_pool kZero kIgnore T is_none x ks stride pad pad_mode = .returned args →
        T ks (x.ndim - 2) = .returned args.kernel_size ∧
        (if is_none stride = true then T ks (x.ndim - 2) else T stride (x.ndim - 2))
          = .returned args.stride := by
    intro ks pad_mode args h
    obtain ⟨m, _, h⟩ := Outcome.bind_eq_returned.1 h
    obtain ⟨k, hk, h⟩ := Outcome.bind_eq_returned.1 h
    obtain ⟨s, hs, h⟩ := Outcome.bind_eq_returned.1 h
    obtain ⟨p, _, h⟩ := Outcome.bind_eq_returned.1 h
    have ha := Outcome.returned.inj h
    subst ha
    exact ⟨hk, hs⟩
  constructor
  · intro hn
    constructor
    · intro cover_all args h
      obtain ⟨hk, hs⟩ := hmax ksize cover_all args h
      rw [if_pos hn] at hs
      exact ⟨hs, (Outcome.returned.inj (hk.symm.trans hs)).symm⟩
    · intro pad_mode args h
      obtain ⟨hk, hs⟩ := havg ksize pad_mode args h
      rw [if_pos hn] at hs
      exact ⟨hs, (Outcome.returned.inj (hk.symm.trans hs)).symm⟩
  · intro hn
    have hfalse : ¬ is_none stride = true := by simp [hn]
    refine ⟨?_, ?_, ?_, ?_⟩
    · intro cover_all args h
      have hs := (hmax ksize cover_all args h).2
      rwa [if_neg hfalse] at hs
    · intro pad_mode args h
      have hs := (havg ksize pad_mode args h).2
      rwa [if_neg hfalse] at hs
    · intro ksize2 cover_all args args2 h h2
      have hs := (hmax ksize cover_all args h).2
      have hs2 := (hmax ksize2 cover_all args2 h2).2
      rw [if_neg hfalse] at hs hs2
      exact Outcome.returned.inj (hs2.symm.trans hs)
    · intro ksize2 pad_mode args args2 h h2
      have hs := (havg ksize pad_mode args h).2
      have hs2 := (havg ksize2 pad_mode args2 h2).2
      rw [if_neg hfalse] at hs hs2
      exact Outcome.returned.inj (hs2.symm.trans hs)

theorem pooling_stride_default_witness :
    Option.isNone (none : Option Int) = true ∧
      max_pool exampleToStackVector Option.isNone exampleImages (some 3) none (some 0) false
        = .returned ⟨exampleImages, [3, 3], [3, 3], [0, 0], false⟩ ∧
      exampleToStackVector (some 3) (exampleImages.ndim - 2) = .returned [3, 3] :=
  ⟨rfl, by decide,
    (((pooling_stride_default exampleToStackVector Option.isNone ⟨1⟩ ⟨2⟩ exampleImages
      (some 3) none (some 0)).1 rfl).1 false
      ⟨exampleImages, [3, 3], [3, 3], [0, 0], false⟩ (by decide)).1⟩

/-! ## Column default of `eye` -/

/-- C26. For every `n`, `k`, dtype and device: `eye` with `M` omitted calls
`Eye(n, n, k, dtype, device)`, and with `M = m` it calls
`Eye(n, m, k, dtype, device)`; `n` and `k` are passed unchanged in both cases. -/
theorem eye_column_default (n k : Int) (dtype : Dtype) (device : Device) :
    eye n none k dtype device = .returned ⟨n, n, k, dtype, device⟩ ∧
      (∀ m : Int, eye n (some m) k dtype device = .returned ⟨n, m, k, dtype, device⟩) ∧
      (∀ (m : Option Int) (args : EyeArgs), eye n m k dtype device = .returned args →
        args.n = n ∧ args.k = k ∧ args.dtype = dtype ∧ args.device = device) := by
  refine ⟨rfl, fun _ => rfl, ?_⟩
  intro m args h
  have ha := Outcome.returned.inj h
  subst ha
  exact ⟨rfl, rfl, rfl, rfl⟩

theorem eye_column_default_witness :
    eye 3 (some 4) 1 .kFloat64 ⟨"native", 0⟩ = .returned ⟨3, 4, 1, .kFloat64, ⟨"native", 0⟩⟩ ∧
      (⟨3, 4, 1, .kFloat64, ⟨"native", 0⟩⟩ : EyeArgs).n = 3 ∧
      (⟨3, 4, 1, .kFloat64, ⟨"native", 0⟩⟩ : EyeArgs).k = 1 :=
  ⟨(eye_column_default 3 1 .kFloat64 ⟨"native", 0⟩).2.1 4,
    ((eye_column_default 3 1 .kFloat64 ⟨"native", 0⟩).2.2 (some 4)
      ⟨3, 4, 1, .kFloat64, ⟨"native", 0⟩⟩ rfl).1,
    ((eye_column_default 3 1 .kFloat64 ⟨"native", 0⟩).2.2 (some 4)
      ⟨3, 4, 1, .kFloat64, ⟨"native", 0⟩⟩ rfl).2.1⟩

/-! ## Operand order of the scalar overloads -/

theorem operands_in_order (d : PyDef) (h : d.args = [0, 1]) (x y : Operand) :
    d.operands [x, y] = [x, y] := by
  simp [PyDef.operands, h]

/-- C24. For subtract, divide, floor_divide, true_divide and power: the
overload with a scalar `x1` and an array `x2` and the overload with an array
`x1` and a scalar `x2` are both registered, and every registration of these
names hands its two arguments to the routine in the order it received them:
the (scalar, array) overload calls the routine with the scalar on the left and
the array on the right, the (array, scalar) overload with the array on the
left and the scalar on the right. -/
theorem scalar_overload_operand_order :
    (∀ name ∈ orderedNames,
      hasOverload elementwiseDefs name [.Scalar, .ArrayBodyPtr] = true ∧
      hasOverload elementwiseDefs name [.ArrayBodyPtr, .Scalar] = true) ∧
    (∀ d ∈ elementwiseDefs, d.name ∈ orderedNames →
      (d.params = [.Scalar, .ArrayBodyPtr] → ∀ (s : Scalar) (a : ArrayBody),
        d.operands [.scalar s, .array a] = [.scalar s, .array a]) ∧
      (d.params = [.ArrayBodyPtr, .Scalar] → ∀ (a : ArrayBody) (s : Scalar),
        d.operands [.array a, .scalar s] = [.array a, .scalar s]) ∧
      (∀ x y : Operand, d.operands [x, y] = [x, y])) := by
  have hargs : ∀ d ∈ elementwiseDefs, d.name ∈ orderedNames → d.args = [0, 1] := by decide
  refine ⟨by decide, ?_⟩
  intro d hd hname
  have ha := hargs d hd hname
  exact ⟨fun _ s a => operands_in_order d ha _ _, fun _ a s => operands_in_order d ha _ _,
    fun x y => operands_in_order d ha x y⟩

theorem scalar_overload_operand_order_witness :
    (⟨"subtract", [.Scalar, .ArrayBodyPtr], "Subtract", [0, 1]⟩ : PyDef) ∈ elementwiseDefs ∧
      "subtract" ∈ orderedNames ∧
      (⟨"subtract", [.Scalar, .ArrayBodyPtr], "Subtract", [0, 1]⟩ : PyDef).operands
          [.scalar ⟨.kInt, 1⟩, .array exampleImages]
        = [.scalar ⟨.kInt, 1⟩, .array exampleImages] :=
  ⟨by decide, by decide,
    (scalar_overload_operand_order.2 ⟨"subtract", [.Scalar, .ArrayBodyPtr], "Subtract", [0, 1]⟩
      (by decide) (by decide)).1 rfl ⟨.kInt, 1⟩ exampleImages⟩

/-! ## `split` with a numpy array -/

/-- C21, as the claim states it, fails: a 0-dimensional array that holds the
float 2.5, which is neither an integer nor a float with zero fraction, makes
`split` throw `value_error`, not `type_error`. -/
theorem split_ndarray_fraction_value_error :
    exampleArrayApi.isinstance_array (.ndarray 0 1 'f' (.float (.finite 5 (-1)))) = true ∧
      exampleArrayApi.array_ndim (.ndarray 0 1 'f' (.float (.finite 5 (-1)))) = 0 ∧
      (double.finite 5 (-1)).HasFraction ∧
      split exampleArrayApi exampleImages (.ndarray 0 1 'f' (.float (.finite 5 (-1)))) 0
        = .thrown (.value_error "Sections must be an integer.") ∧
      (Error.value_error "Sections must be an integer.").kind ≠ ErrorKind.type_error := by
  refine ⟨by decide, by decide, ⟨by decide, by decide⟩, by decide, by decide⟩

/-- C21, amended. For every object that reaches the numpy-array branch of
`split` (an array, neither a Python integer nor a Python float):
with two or more dimensions `split` throws `value_error`;
with no dimension the scalar that `tolist` returns is a section count: an
integer gives the sections of its cast to `int64_t`, a float that equals an
integer fitting `int64_t` gives that many sections, a float with a non-zero
fraction throws `value_error`, and a scalar of any other type throws
`type_error`;
with one dimension the array is an index list: an array of size 0 gives the
empty index list whatever its dtype, a non-empty array whose dtype kind is not
`i` (signed integer) throws `type_error`, and a non-empty array of kind `i`
gives the list of its items, so that a non-empty array is accepted only if its
kind is `i`. -/
theorem split_ndarray {PyObject : Type} (api : PyApi PyObject) (ary : ArrayBody)
    (ios : PyObject) (axis : Int)
    (hint : api.isinstance_int ios = false) (hfloat : api.isinstance_float ios = false)
    (harr : api.isinstance_array ios = true) :
    (2 ≤ api.array_ndim ios →
      split api ary ios axis = .thrown (.value_error
        ("Too many dimensions of indices: " ++ toString (api.array_ndim ios)))) ∧
    (api.array_ndim ios = 0 →
      (api.isinstance_int (api.tolist ios) = true →
        ∀ n, api.cast_int64 (api.tolist ios) = .returned n →
          split api ary ios axis = .returned (.sections ary n axis)) ∧
      (api.isinstance_int (api.tolist ios) = false →
        api.isinstance_float (api.tolist ios) = true →
        ∀ v, api.cast_double (api.tolist ios) = .returned v → v.IsBinary64 →
          (∀ n : Int, InInt64 n → v.eq (.finite n 0) = true →
            split api ary ios axis = .returned (.sections ary n axis)) ∧
          (v.HasFraction →
            split api ary ios axis = .thrown (.value_error "Sections must be an integer."))) ∧
      (api.isinstance_int (api.tolist ios) = false →
        api.isinstance_float (api.tolist ios) = false →
        split api ary ios axis = .thrown (.type_error "Sections must be an integer."))) ∧
    (api.array_ndim ios = 1 →
      (api.array_size ios = 0 → split api ary ios axis = .returned (.indices ary [] axis)) ∧
      (api.array_size ios ≠ 0 → api.array_dtype_kind ios ≠ 'i' →
        split api ary ios axis = .thrown (.type_error "Indices must be integers.")) ∧
      (api.array_size ios ≠ 0 → api.array_dtype_kind ios = 'i' →
        ∀ idx, castItems api (api.list_items (api.tolist ios)) = .returned idx →
          split api ary ios axis = .returned (.indices ary idx axis)) ∧
      (api.array_size ios ≠ 0 → ∀ call, split api ary ios axis = .returned call →
        api.array_dtype_kind ios = 'i')) := by
  refine ⟨?_, ?_, ?_⟩
  · intro h2
    simp [split, hint, hfloat, harr, h2]
  · intro h0
    have hn2 : ¬ (2 ≤ api.array_ndim ios) := by omega
    refine ⟨?_, ?_, ?_⟩
    · intro hi n hcast
      simp [split, hint, hfloat, harr, h0, hi, hcast, Outcome.bind, split_sections]
    · intro hi hf v hcast hv
      constructor
      · intro n hn heq
        cases v with
        | infinity s => simp [double.eq] at heq
        | nan => simp [double.eq] at heq
        | finite m e =>
          have hp := pyfloat_of_integer api (api.tolist ios) m e n hcast hv hn heq
          simp [split, hint, hfloat, harr, h0, hi, hf, hp, Outcome.bind, split_sections]
      · intro hfr
        have hp := pyfloat_of_fraction api (api.tolist ios) v hcast hv hfr
        simp [split, hint, hfloat, harr, h0, hi, hf, hp, Outcome.bind]
    · intro hi hf
      simp [split, hint, hfloat, harr, h0, hi, hf, Outcome.bind]
  · intro h1
    have hn2 : ¬ (2 ≤ api.array_ndim ios) := by omega
    have hn0 : ¬ (api.array_ndim ios = 0) := by omega
    refine ⟨?_, ?_, ?_, ?_⟩
    · intro hs
      simp [split, hint, hfloat, harr, h1, hs, split_indices]
    · intro hs hk
      simp [split, hint, hfloat, harr, h1, hs, hk]
    · intro hs hk idx hidx
      simp [split, hint, hfloat, harr, h1, hs, hk, hidx, Outcome.bind, split_indices]
    · intro hs call hcall
      by_contra hk
      simp [split, hint, hfloat, harr, h1, hs, hk] at hcall

theorem split_ndarray_witness :
    exampleArrayApi.isinstance_int (.ndarray 1 2 'i' (.list [2, 4])) = false ∧
      exampleArrayApi.isinstance_float (.ndarray 1 2 'i' (.list [2, 4])) = false ∧
      exampleArrayApi.isinstance_array (.ndarray 1 2 'i' (.list [2, 4])) = true ∧
      exampleArrayApi.array_ndim (.ndarray 1 2 'i' (.list [2, 4])) = 1 ∧
      split exampleArrayApi exampleImages (.ndarray 1 2 'i' (.list [2, 4])) 0
        = .returned (.indices exampleImages [2, 4] 0) :=
  ⟨rfl, rfl, rfl, rfl,
    ((split_ndarray exampleArrayApi exampleImages (.ndarray 1 2 'i' (.list [2, 4])) 0
      rfl rfl rfl).2.2 rfl).2.2.1 (by decide) rfl [2, 4] (by decide)⟩

/-! ## Overloads of the binary elementwise routines -/

/-- C16, as the claim states it, fails: `equal` is one of the listed routines
and is registered with the array-array overload only; the module has no
overload of it that takes a scalar. -/
theorem overloads_not_complete :
    "equal" ∈ arithmeticNames ++ bitwiseNames ++ comparisonNames ++ logicalNames ∧
      hasOverload elementwiseDefs "equal" [.ArrayBodyPtr, .ArrayBodyPtr] = true ∧
      hasOverload elementwiseDefs "equal" [.ArrayBodyPtr, .Scalar] = false ∧
      hasOverload elementwiseDefs "equal" [.Scalar, .ArrayBodyPtr] = false ∧
      ¬ (∀ name ∈ arithmeticNames ++ bitwiseNames ++ comparisonNames ++ logicalNames,
          OverloadComplete elementwiseDefs name = true) := by
  refine ⟨by decide, by decide, by decide, by decide, ?_⟩
  intro h
  exact absurd (h "equal" (by decide)) (by decide)

/-- C16, amended. Every binary arithmetic routine (add, subtract, multiply,
divide, floor_divide, true_divide, power) and every bitwise routine (and, or,
xor) is registered with an array-array overload and with array-scalar overloads
in both operand orders; every comparison (equal, not_equal, greater,
greater_equal, less, less_equal) and every binary logical routine (and, or,
xor) is registered with the array-array overload and with no overload that
takes a scalar. -/
theorem overloads_registered :
    (∀ name ∈ arithmeticNames ++ bitwiseNames, OverloadComplete elementwiseDefs name = true) ∧
      (∀ name ∈ comparisonNames ++ logicalNames,
        hasOverload elementwiseDefs name [.ArrayBodyPtr, .ArrayBodyPtr] = true ∧
        hasOverload elementwiseDefs name [.ArrayBodyPtr, .Scalar] = false ∧
        hasOverload elementwiseDefs name [.Scalar, .ArrayBodyPtr] = false ∧
        hasOverload elementwiseDefs name [.Scalar, .Scalar] = false) := by
  constructor <;> decide

theorem overloads_registered_witness :
    "subtract" ∈ arithmeticNames ++ bitwiseNames ∧
      OverloadComplete elementwiseDefs "subtract" = true ∧
      "less" ∈ comparisonNames ++ logicalNames ∧
      hasOverload elementwiseDefs "less" [.ArrayBodyPtr, .Scalar] = false :=
  ⟨by decide, overloads_registered.1 "subtract" (by decide), by decide,
    (overloads_registered.2 "less" (by decide)).2.1⟩

end chainerx

namespace xchainer

open chainerx

/-! ## Dispatch of `Conv` and `ConvTranspose` -/

/-- C12. For all arguments and whatever the devices implement: `Conv` returns
exactly what the `Conv` method of the device of `x` returns for the same six
arguments, and `ConvTranspose` exactly what that device's `ConvTranspose`
returns; an absent bias or output size is passed on absent. The device is
that of `x` alone: two families of device methods that agree on the device of
`x` give the same result, whatever the devices of `w` and `b` are. -/
theorem Conv_dispatch (d : DeviceMethods) (x w : ArrayBody) (b : Option ArrayBody)
    (stride pad : List Int) (cover_all : Bool) (out_size : Option (List Int)) :
    Conv d x w b stride pad cover_all = d.Conv x.device x w b stride pad cover_all ∧
    ConvTranspose d x w b stride pad out_size
      = d.ConvTranspose x.device x w b stride pad out_size ∧
    Conv d x w none stride pad cover_all = d.Conv x.device x w none stride pad cover_all ∧
    ConvTranspose d x w none stride pad none
      = d.ConvTranspose x.device x w none stride pad none ∧
    (∀ e : DeviceMethods, e.Conv x.device = d.Conv x.device →
      Conv e x w b stride pad cover_all = Conv d x w b stride pad cover_all) ∧
    (∀ e : DeviceMethods, e.ConvTranspose x.device = d.ConvTranspose x.device →
      ConvTranspose e x w b stride pad out_size = ConvTranspose d x w b stride pad out_size) := by
  refine ⟨rfl, rfl, rfl, rfl, ?_, ?_⟩
  · intro e he
    simp only [Conv, he]
  · intro e he
    simp only [ConvTranspose, he]

theorem Conv_dispatch_witness :
    Conv nativeOnlyDevices exampleImages exampleKernelOnCuda none [1, 1] [0, 0] false
        = .returned exampleImages ∧
      Conv nativeOnlyDevices exampleImages exampleKernelOnCuda none [1, 1] [0, 0] false
        = Conv echoDevices exampleImages exampleKernelOnCuda none [1, 1] [0, 0] false :=
  ⟨by decide,
    ((Conv_dispatch echoDevices exampleImages exampleKernelOnCuda none [1, 1] [0, 0] false
      none).2.2.2.2.1 nativeOnlyDevices rfl)⟩

/-! ## No device comparison in the routine layer -/

/-- C13, as the claim states it, fails: with the input on "native:0" and the
kernel on "cuda:0", `Conv` and `ConvTranspose` do not fail in the routine
layer; they call the method of the device of `x`, and return what it returns. -/
theorem Conv_device_mismatch_dispatches :
    exampleKernelOnCuda.device ≠ exampleImages.device ∧
      Conv echoDevices exampleImages exampleKernelOnCuda none [1, 1] [0, 0] false
        = .returned exampleImages ∧
      ConvTranspose echoDevices exampleImages exampleKernelOnCuda none [1, 1] [0, 0] none
        = .returned exampleImages ∧
      ¬ (Conv echoDevices exampleImages exampleKernelOnCuda none [1, 1] [0, 0] false).fails := by
  refine ⟨by decide, by decide, by decide, by decide⟩

/-- C13, amended. The routine layer compares no devices. For every call in
which the kernel `w`, or a present bias `b`, is on another device than the
input `x`, `Conv` and `ConvTranspose` still call the method of the device of
`x` with the arguments unchanged, and their outcome (a result or a failure) is
the outcome of that method. -/
theorem Conv_device_mismatch (d : DeviceMethods) (x w : ArrayBody) (b : Option ArrayBody)
    (stride pad : List Int) (cover_all : Bool) (out_size : Option (List Int))
    (hmis : w.device ≠ x.device ∨ ∃ bias, b = some bias ∧ bias.device ≠ x.device) :
    Conv d x w b stride pad cover_all = d.Conv x.device x w b stride pad cover_all ∧
    ConvTranspose d x w b stride pad out_size
      = d.ConvTranspose x.device x w b stride pad out_size ∧
    (∀ r, d.Conv x.device x w b stride pad cover_all = .returned r →
      Conv d x w b stride pad cover_all = .returned r) ∧
    (∀ r, d.ConvTranspose x.device x w b stride pad out_size = .returned r →
      ConvTranspose d x w b stride pad out_size = .returned r) := by
  cases hmis <;> exact ⟨rfl, rfl, fun _ h => h, fun _ h => h⟩

theorem Conv_device_mismatch_witness :
    (exampleKernelOnCuda.device ≠ exampleImages.device ∨
        ∃ bias, (none : Option ArrayBody) = some bias ∧ bias.device ≠ exampleImages.device) ∧
      Conv echoDevices exampleImages exampleKernelOnCuda none [1, 1] [0, 0] false
        = echoDevices.Conv exampleImages.device exampleImages exampleKernelOnCuda none
            [1, 1] [0, 0] false :=
  ⟨Or.inl (by decide),
    (Conv_device_mismatch echoDevices exampleImages exampleKernelOnCuda none [1, 1] [0, 0]
      false none (Or.inl (by decide))).1⟩

/-! ## No length validation in the routine layer -/

/-- C14, as the claim states it, fails: for an input of four axes, so two
spatial axes, and a stride and a pad of one entry each, `Conv` does not fail
before the device method; it calls the method and returns what it returns. -/
theorem Conv_length_mismatch_dispatches :
    ((([1] : List Int).length : Int) ≠ exampleImages.ndim - 2) ∧
      ((([0] : List Int).length : Int) ≠ exampleImages.ndim - 2) ∧
      Conv echoDevices exampleImages exampleImages none [1] [0] false
        = .returned exampleImages ∧
      ¬ (Conv echoDevices exampleImages exampleImages none [1] [0] false).fails := by
  refine ⟨by decide, by decide, by decide, by decide⟩

/-- C14, amended. `Conv` does not look at the lengths of `stride` and `pad`.
For every call in which one of them does not have `x.ndim - 2` entries, it
still calls the `Conv` method of the device of `x` with the arguments
unchanged, and its outcome is the outcome of that method. -/
theorem Conv_length_mismatch (d : DeviceMethods) (x w : ArrayBody) (b : Option ArrayBody)
    (stride pad : List Int) (cover_all : Bool)
    (hlen : (stride.length : Int) ≠ x.ndim - 2 ∨ (pad.length : Int) ≠ x.ndim - 2) :
    Conv d x w b stride pad cover_all = d.Conv x.device x w b stride pad cover_all ∧
    (∀ r, d.Conv x.device x w b stride pad cover_all = .returned r →
      Conv d x w b stride pad cover_all = .returned r) ∧
    (∀ e, d.Conv x.device x w b stride pad cover_all = .thrown e →
      Conv d x w b stride pad cover_all = .thrown e) := by
  cases hlen <;> exact ⟨rfl, fun _ h => h, fun _ h => h⟩

theorem Conv_length_mismatch_witness :
    (((([1] : List Int).length : Int) ≠ exampleImages.ndim - 2) ∨
        ((([0] : List Int).length : Int) ≠ exampleImages.ndim - 2)) ∧
      Conv echoDevices exampleImages exampleImages none [1] [0] false
        = echoDevices.Conv exampleImages.device exampleImages exampleImages none [1] [0] false :=
  ⟨Or.inl (by decide),
    (Conv_length_mismatch echoDevices exampleImages exampleImages none [1] [0] false
      (Or.inl (by decide))).1⟩

/-! ## The test of `CudaDevice` as written -/

end xchainer
